import Mathlib

/-!  Verification of the Pattern Wizard scan orchestration engine
     (src/ui/pattern_wizard.py) of the antenna-test-range repository.

     The embedding models angles, frequencies and measured values as
     rationals (numpy float arithmetic idealized as exact rational
     arithmetic), device proxies as failure oracles keyed by per-device
     call counters, and the cross-thread pause/abort flags as boolean
     schedules keyed by a flag-read counter.  The worker produces an
     observable trace of device calls, CSV lines, live-plot events and
     status-label updates.  -/

namespace AntennaRange

/-- Scan modes of `PatternWizard` (`"full" | "xy" | "phi0" | "phi90" | "custom"`). -/
inductive Mode
  | full | xy | phi0 | phi90 | custom
deriving DecidableEq, Repr

/-- The custom-slice fixed axis (`"phi" | "theta"` after validation). -/
inductive Axis
  | phi | theta
deriving DecidableEq, Repr

/-- `self.polarization_mode` : `"vertical" | "horizontal" | "both"`. -/
inductive PolMode
  | vertical | horizontal | both
deriving DecidableEq, Repr

/-- `np.arange(start, stop, step)` for a positive step: the values
`start + k*step` for `k = 0, 1, ...` with `start + k*step < stop`;
the element count is `⌈(stop - start)/step⌉` clamped at zero. -/
def arange (start stop step : ℚ) : List ℚ :=
  if 0 < step then
    (List.range (Int.toNat ⌈(stop - start) / step⌉)).map (fun (k : ℕ) => start + (k : ℚ) * step)
  else []

/-- Validated scan parameters as they exist on the wizard instance when
`run_scan` starts (the `self.*` fields set by `start_scan`). -/
structure Params where
  mode : Mode
  theta_step : ℚ
  phi_step : ℚ
  custom_fixed_axis : Axis
  custom_fixed_angle : ℚ
  custom_step_size : ℚ
  freq_start : ℚ
  freq_stop : ℚ
  freq_points : ℚ
  power_level : ℚ
  selected_format : String
  polMode : PolMode
  no_vna : Bool
  plot_title : String
  show_grid : Bool
  y_axis_limits : Option (ℚ × ℚ)
  test_label : String
deriving DecidableEq, Repr

/-- `theta_range` as precomputed at the top of `run_scan`
(pattern_wizard.py lines 1222-1241). -/
def theta_range (p : Params) : List ℚ :=
  match p.mode with
  | .full => arange 0 181 p.theta_step
  | .xy => [90]
  | .phi0 => arange 0 360 p.theta_step
  | .phi90 => arange 0 360 p.theta_step
  | .custom =>
    match p.custom_fixed_axis with
    | .phi => arange 0 360 p.custom_step_size
    | .theta => [p.custom_fixed_angle]

/-- `phi_range` as precomputed at the top of `run_scan`. -/
def phi_range (p : Params) : List ℚ :=
  match p.mode with
  | .full => arange 0 360 p.phi_step
  | .xy => arange 0 360 p.phi_step
  | .phi0 => [0]
  | .phi90 => [90]
  | .custom =>
    match p.custom_fixed_axis with
    | .phi => [p.custom_fixed_angle]
    | .theta => arange 0 360 p.custom_step_size

/-- The visiting order of the angle loops of `run_scan`: outer loop over
`phi_range`, inner loop over `theta_range` (phi-major, theta-minor). -/
def angleGrid (p : Params) : List (ℚ × ℚ) :=
  (phi_range p).flatMap (fun phi => (theta_range p).map (fun theta => (phi, theta)))

/-- The polarization plan computed by `run_scan` from `polarization_mode`
(pattern_wizard.py lines 1246-1252): ordered (label, absolute degrees). -/
def polPlan : PolMode → List (String × ℚ)
  | .both => [("vertical", 0), ("horizontal", 90)]
  | .horizontal => [("horizontal", 90)]
  | .vertical => [("vertical", 0)]

/-- `FORMAT_LABELS.get(fmt, "Measurement")`. -/
def formatLabel : String → String
  | "LOGM" => "Magnitude (dB)"
  | "PHAS" => "Phase (deg)"
  | "SMIC" => "Smith Chart (complex)"
  | "POLA" => "Polar (complex)"
  | "LINM" => "Magnitude (linear)"
  | "SWR" => "SWR"
  | "REAL" => "Real Part"
  | "IMAG" => "Imaginary Part"
  | _ => "Measurement"

/-- `ALLOWED_POINTS`, as integers (`["201","401","801","1601"]` in source). -/
def ALLOWED_POINTS : List ℤ := [201, 401, 801, 1601]

/-- Python `int()` on a rational: truncation toward zero. -/
def intTrunc (q : ℚ) : ℤ := q.num / (q.den : ℤ)

/-- Python `round` to an integer: round half to even (banker's rounding). -/
def roundHalfEven (q : ℚ) : ℤ :=
  if q - ⌊q⌋ < 1/2 then ⌊q⌋
  else if (1 : ℚ)/2 < q - ⌊q⌋ then ⌊q⌋ + 1
  else if ⌊q⌋ % 2 = 0 then ⌊q⌋ else ⌊q⌋ + 1

/-- Python `round(m, 2)` (idealized on exact rationals). -/
def pyRound2 (q : ℚ) : ℚ := (roundHalfEven (q * 100) : ℚ) / 100

/-! ### start_scan: parameter validation gate (pattern_wizard.py 1043-1190) -/

/-- Whether the parameter form for `mode` has a "theta_step" entry
(`show_param_form`: modes "full", "phi0", "phi90"). -/
def hasThetaEntry : Mode → Bool
  | .full => true
  | .phi0 => true
  | .phi90 => true
  | _ => false

/-- Whether the parameter form for `mode` has a "phi_step" entry
(`show_param_form`: modes "full", "xy"). -/
def hasPhiEntry : Mode → Bool
  | .full => true
  | .xy => true
  | _ => false

/-- The raw user inputs as read from the form entries by `start_scan`
(already parsed as numbers; float-parse failures are outside scope).
Entries that the mode's form does not create are ignored by `start_scan`
exactly as in the source (guarded by key-presence checks). -/
structure RawInputs where
  mode : Mode
  theta_step : ℚ
  phi_step : ℚ
  fixed_axis : String
  fixed_angle : ℚ
  step_size : ℚ
  freq_start : ℚ
  freq_stop : ℚ
  freq_points : ℚ
  no_vna : Bool
  power : ℚ
  selected_format : String
  y_min : ℚ
  y_max : ℚ
  polMode : PolMode
deriving DecidableEq, Repr

/-- The `try`-block of `start_scan` (lines 1063-1135): the first failing
check raises `ValueError` with the given message; `none` means all checks
pass.  Note the source parses `freq_start`/`freq_stop` but never compares
them.  The y-limit entries exist exactly when the mode is not "full". -/
def validateInputs (r : RawInputs) : Option String :=
  if hasThetaEntry r.mode ∧ r.theta_step ≤ 0 then some "Theta step must be > 0"
  else if hasPhiEntry r.mode ∧ r.phi_step ≤ 0 then some "Phi step must be > 0"
  else if r.mode = .custom ∧ r.fixed_axis ≠ "phi" ∧ r.fixed_axis ≠ "theta" then
    some "Fixed axis must be phi or theta"
  else if r.no_vna = false ∧ intTrunc r.freq_points ∉ ALLOWED_POINTS then
    some "Freq Points must be one of 201, 401, 801, 1601 when VNA is modified."
  else if ¬(-70 ≤ r.power ∧ r.power ≤ 5) then
    some "Power must be between -70 and 5 dBm."
  else if r.mode ≠ .full ∧ ¬(r.y_min < r.y_max) then
    some "Y-axis min must be less than max."
  else none

/-- The SCPI command strings issued by `vna_setup` (lines 1576-1587), in order. -/
def vnaSetupCmds (r : RawInputs) : List String :=
  ["ABORT 7", "CLEAR 716", "PRES", "S21",
   "STAR " ++ toString r.freq_start ++ "GHZ",
   "STOP " ++ toString r.freq_stop ++ "GHZ",
   "POWE " ++ toString r.power,
   "POIN " ++ toString (intTrunc r.freq_points),
   r.selected_format ++ ";",
   "CONT"]

/-- One externally observable device-proxy call. -/
inductive DevCall
  | posMove (a b : ℚ)
  | posWaitIdle (timeout : ℚ)
  | rotMoveAbs (deg : ℚ)
  | rotWaitDone
  | rotWaitEstimate (delta : ℚ)
  | vnaWrite (cmd : String)
  | vnaReadTrace
deriving DecidableEq, Repr

/-- Outcome of `start_scan`. -/
inductive StartResult
  | invalidInput (msg : String)
  | vnaConfigError (msg : String)
  | scanStarted
deriving DecidableEq, Repr

/-- Behavior oracle for the VNA `write` calls made by `vna_setup`:
`some msg` means the n-th write raises. -/
def runVnaSetup (writeFails : Nat → Option String) (cmds : List String) (n : Nat) :
    List DevCall × Option String :=
  match cmds with
  | [] => ([], none)
  | c :: rest =>
    match writeFails n with
    | some msg => ([DevCall.vnaWrite c], some msg)
    | none =>
      let (calls, err) := runVnaSetup writeFails rest (n + 1)
      (DevCall.vnaWrite c :: calls, err)

/-- `start_scan` (lines 1043-1190), up to spawning the worker thread:
validation happens first; on a `ValueError` the method returns with no
device call and no thread; otherwise `vna_setup` runs (unless the
"Do not modify VNA" box is checked) and only then is the worker spawned.
Returns the device-proxy calls issued together with the outcome
(`scanStarted` means the worker thread was spawned). -/
def start_scan (writeFails : Nat → Option String) (r : RawInputs) :
    List DevCall × StartResult :=
  match validateInputs r with
  | some msg => ([], .invalidInput msg)
  | none =>
    if r.no_vna then ([], .scanStarted)
    else
      match runVnaSetup writeFails (vnaSetupCmds r) 0 with
      | (calls, some msg) => (calls, .vnaConfigError ("VNA config error: " ++ msg))
      | (calls, none) => (calls, .scanStarted)

/-! ### CSV block protocol (pattern_wizard.py 1465-1556) -/

/-- The structured content of the `CONFIG_JSON` line written by
`open_csv_block` (the `cfg` dict, lines 1474-1500).  The two wall-clock
timestamp fields (`created_local`, `created_utc`) are omitted: they are
not expressible in a deterministic embedding and no claim concerns them. -/
structure ConfigMeta where
  name : String
  mode : Mode
  polarization : Option String
  sweep_start_ghz : ℚ
  sweep_stop_ghz : ℚ
  sweep_points : ℤ
  sweep_format : String
  sweep_power_dbm : ℚ
  grid_phi_step_deg : Option ℚ
  grid_theta_step_deg : Option ℚ
  grid_custom_axis : Option Axis
  grid_custom_angle_deg : Option ℚ
  grid_custom_step_deg : Option ℚ
  plot_title : String
  plot_grid : Bool
  plot_y_limits : Option (ℚ × ℚ)
  do_not_modify_vna : Bool
deriving DecidableEq, Repr

/-- One line of the multi-block CSV file, structurally.  `configJson cfg`
stands for the single line `# CONFIG_JSON: <json.dumps(cfg)>`; holding the
serialized object structurally makes "parseable metadata object" a
constructor fact. -/
inductive CsvLine
  | testStart
  | configJson (cfg : ConfigMeta)
  | metaLine (s : String)
  | header (cols : List String)
  | row (phi theta freq val : ℚ)
  | testEnd
deriving DecidableEq, Repr

/-- `close_csv_block` (lines 1545-1556) as a function of the tracked state
(`_csv_block_open`, truthiness of `self.csv_path`) and of whether the
append of the end marker raises.  Returns the lines appended to the file,
the new `_csv_block_open` flag, and whether the call raised (the `finally`
clause clears the flag even when the write raises, and the exception
propagates to the caller). -/
def close_csv_block (blockOpen pathSet endWriteFails : Bool) :
    List CsvLine × Bool × Bool :=
  if blockOpen = false ∨ pathSet = false then ([], blockOpen, false)
  else if endWriteFails then ([], false, true)
  else ([CsvLine.testEnd], false, false)

/-! ### The worker thread `run_scan` (pattern_wizard.py 1192-1418) -/

/-- Device / persistence behavior oracles.  Each per-device oracle is keyed
by that device's own call counter; `some msg` means the call raises an
exception whose message is `msg`.  `vnaRead` yields the n-th
`read_trace()` result: `Except.error msg` when the read raises, otherwise
the `(freqs, mags)` arrays.  `hasRot` models `self.rot` being non-None.
`vnaIdent`/`posIdent` are the best-effort identity strings written as META
lines (`none` models the probe raising, which skips the line). -/
structure Env where
  posFails : Nat → Option String
  vnaRead : Nat → Except String (List ℚ × List ℚ)
  hasRot : Bool
  rotMoveFails : Nat → Option String
  rotWaitDone : Nat → Except String Bool
  rotEstFails : Nat → Option String
  openFails : Nat → Option String
  appendFails : Nat → Option String
  closeFails : Nat → Option String
  vnaIdent : Option String
  posIdent : Option String

/-- Schedules for the two cross-thread flags, keyed by the number of flag
reads (`Event.is_set()` calls) the worker has performed so far. -/
structure Flags where
  abortAt : Nat → Bool
  pauseAt : Nat → Bool

/-- Observable events emitted by the worker, in program order.
`live2d` is one `update_live_2d_plot(freq, angle, mag)` call (the
per-frequency live sample sink, value unrounded); `plot3d`/`plot2d` are
the coarse mid-band plot updates; `status` is a scan-status label update;
`checkAbort`/`checkPause` record flag reads with the value read. -/
inductive Ev
  | dev (c : DevCall)
  | csv (l : CsvLine)
  | live2d (freq angle mag : ℚ)
  | plot3d (phi theta midVal : ℚ)
  | plot2d (angle midVal : ℚ)
  | status (s : String)
  | checkAbort (b : Bool)
  | checkPause (b : Bool)
  | uncaught (tag : String)
deriving DecidableEq, Repr

/-- Mutable worker-visible state: per-device call counters, flag-read
counter, the emitted trace, the CSV block flag and the cached rotation
angle (`_last_rotation_deg`). -/
@[ext]
structure St where
  checks : Nat
  posCalls : Nat
  rotCalls : Nat
  vnaCalls : Nat
  opens : Nat
  appends : Nat
  closes : Nat
  blockOpen : Bool
  lastRot : Option ℚ
  trace : List Ev
deriving DecidableEq, Repr

/-- The initial state of a fresh worker run. -/
def St.init : St :=
  ⟨0, 0, 0, 0, 0, 0, 0, false, none, []⟩

/-- The CSV lines appearing in an event list, in order. -/
def csvOf (t : List Ev) : List CsvLine :=
  t.filterMap (fun e => match e with | .csv l => some l | _ => none)

/-- The status-label texts appearing in an event list, in order. -/
def statusOf (t : List Ev) : List String :=
  t.filterMap (fun e => match e with | .status m => some m | _ => none)

/-- The live-sink samples (`update_live_2d_plot` calls) in an event list:
(frequency, angle key, unrounded value). -/
def liveOf (t : List Ev) : List (ℚ × ℚ × ℚ) :=
  t.filterMap (fun e => match e with | .live2d f a m => some (f, a, m) | _ => none)

/-- The CSV lines appended so far, in order. -/
def St.csv (s : St) : List CsvLine := csvOf s.trace

/-- The most recent status-label text, if any. -/
def St.lastStatus (s : St) : Option String := (statusOf s.trace).getLast?

/-- Read the abort flag (`self.abort_flag.is_set()`), consuming one flag read. -/
def readAbort (fl : Flags) (s : St) : Bool × St :=
  (fl.abortAt s.checks,
   { s with checks := s.checks + 1, trace := s.trace ++ [Ev.checkAbort (fl.abortAt s.checks)] })

/-- Read the pause flag (`self.pause_flag.is_set()`), consuming one flag read. -/
def readPause (fl : Flags) (s : St) : Bool × St :=
  (fl.pauseAt s.checks,
   { s with checks := s.checks + 1, trace := s.trace ++ [Ev.checkPause (fl.pauseAt s.checks)] })

/-- `self.serial.move_to(a, b)`: the call is issued (recorded) and raises when
the positioner oracle says so for this positioner call index. -/
def posMoveCall (env : Env) (a b : ℚ) (s : St) : Option String × St :=
  (env.posFails s.posCalls,
   { s with posCalls := s.posCalls + 1, trace := s.trace ++ [Ev.dev (DevCall.posMove a b)] })

/-- `self.serial.wait_for_idle(60)` (the attribute exists on the real driver). -/
def posWaitCall (env : Env) (s : St) : Option String × St :=
  (env.posFails s.posCalls,
   { s with posCalls := s.posCalls + 1, trace := s.trace ++ [Ev.dev (DevCall.posWaitIdle 60)] })

/-- `self.vna.read_trace()`. -/
def vnaReadCall (env : Env) (s : St) : Except String (List ℚ × List ℚ) × St :=
  (env.vnaRead s.vnaCalls,
   { s with vnaCalls := s.vnaCalls + 1, trace := s.trace ++ [Ev.dev DevCall.vnaReadTrace] })

/-- Body of `_set_rotation_deg` past the early returns (lines 176-193):
move, deterministic wait (inner `try` maps a raise to `ok = False`),
time-estimate fallback; the outer `try` converts any raise from the move or
the fallback into a non-fatal "Rotation stage error" label update, skipping
the `_last_rotation_deg` update. -/
def setRotationRun (env : Env) (target : ℚ) (s : St) : St :=
  let mfail := env.rotMoveFails s.rotCalls
  let s1 : St := { s with
    rotCalls := s.rotCalls + 1,
    trace := s.trace ++ [Ev.dev (DevCall.rotMoveAbs target)] }
  match mfail with
  | some msg => { s1 with trace := s1.trace ++ [Ev.status ("Rotation stage error: " ++ msg)] }
  | none =>
    let wres := env.rotWaitDone s1.rotCalls
    let s2 : St := { s1 with
      rotCalls := s1.rotCalls + 1,
      trace := s1.trace ++ [Ev.dev DevCall.rotWaitDone] }
    let ok := match wres with | .ok b => b | .error _ => false
    if ok then { s2 with lastRot := some target }
    else
      let delta := match s2.lastRot with | none => target | some l => target - l
      let efail := env.rotEstFails s2.rotCalls
      let s3 : St := { s2 with
        rotCalls := s2.rotCalls + 1,
        trace := s2.trace ++ [Ev.dev (DevCall.rotWaitEstimate delta)] }
      match efail with
      | some msg => { s3 with trace := s3.trace ++ [Ev.status ("Rotation stage error: " ++ msg)] }
      | none => { s3 with lastRot := some target }

/-- `_set_rotation_deg(target)` (lines 164-193): no-op without a rotation
stage, redundant-command skip within 1e-6 of the cached angle, else run. -/
def setRotationDeg (env : Env) (target : ℚ) (s : St) : St :=
  if env.hasRot = false then s
  else
    match s.lastRot with
    | some l => if |l - target| < 1/1000000 then s else setRotationRun env target s
    | none => setRotationRun env target s

/-- `_restore_vertical` (lines 195-211): best-effort return to 0°; every
exception is swallowed silently (no label update). -/
def restoreVertical (env : Env) (s : St) : St :=
  if env.hasRot = false then s
  else
    let mfail := env.rotMoveFails s.rotCalls
    let s1 : St := { s with
      rotCalls := s.rotCalls + 1,
      trace := s.trace ++ [Ev.dev (DevCall.rotMoveAbs 0)] }
    match mfail with
    | some _ => s1
    | none =>
      let wres := env.rotWaitDone s1.rotCalls
      let s2 : St := { s1 with
        rotCalls := s1.rotCalls + 1,
        trace := s1.trace ++ [Ev.dev DevCall.rotWaitDone] }
      let ok := match wres with | .ok b => b | .error _ => false
      if ok then { s2 with lastRot := some 0 }
      else
        let delta := match s2.lastRot with | none => 0 | some l => -l
        let efail := env.rotEstFails s2.rotCalls
        let s3 : St := { s2 with
          rotCalls := s2.rotCalls + 1,
          trace := s2.trace ++ [Ev.dev (DevCall.rotWaitEstimate delta)] }
        match efail with
        | some _ => s3
        | none => { s3 with lastRot := some 0 }

/-- The `CONFIG_JSON` object built by `open_csv_block` (lines 1474-1500)
from the wizard's instance fields; fields the mode's form never sets are
`None` exactly as in a fresh window. -/
def buildConfig (p : Params) (polLabel : Option String) : ConfigMeta :=
  { name := p.test_label
    mode := p.mode
    polarization := polLabel
    sweep_start_ghz := p.freq_start
    sweep_stop_ghz := p.freq_stop
    sweep_points := intTrunc p.freq_points
    sweep_format := p.selected_format
    sweep_power_dbm := p.power_level
    grid_phi_step_deg := if hasPhiEntry p.mode then some p.phi_step else none
    grid_theta_step_deg := if hasThetaEntry p.mode then some p.theta_step else none
    grid_custom_axis := if p.mode = Mode.custom then some p.custom_fixed_axis else none
    grid_custom_angle_deg := if p.mode = Mode.custom then some p.custom_fixed_angle else none
    grid_custom_step_deg := if p.mode = Mode.custom then some p.custom_step_size else none
    plot_title := p.plot_title
    plot_grid := p.show_grid
    plot_y_limits := p.y_axis_limits
    do_not_modify_vna := p.no_vna }

/-- The lines `open_csv_block` appends (lines 1502-1525): start marker,
CONFIG_JSON, best-effort META identity lines (skipped when the identity
probe raises), polarization META, then the 4-column header row. -/
def openLines (env : Env) (p : Params) (polLabel : Option String) : List CsvLine :=
  [CsvLine.testStart, CsvLine.configJson (buildConfig p polLabel)]
  ++ (match env.vnaIdent with
      | some id => [CsvLine.metaLine ("vna=" ++ id)]
      | none => [])
  ++ (match env.posIdent with
      | some id => [CsvLine.metaLine ("positioner=" ++ id)]
      | none => [])
  ++ [CsvLine.metaLine ("polarization=" ++ polLabel.getD "None"),
      CsvLine.header ["Phi (deg)", "Theta (deg)", "Frequency (GHz)", formatLabel p.selected_format]]

/-- `open_csv_block` in the worker: an oracle-selected raise (directory
creation / file open failure) writes nothing; success appends the block
prologue and sets `_csv_block_open`. -/
def openCsvBlock (env : Env) (p : Params) (polLabel : Option String) (s : St) :
    Option String × St :=
  match env.openFails s.opens with
  | some msg => (some msg, { s with opens := s.opens + 1 })
  | none =>
    (none, { s with
      opens := s.opens + 1,
      blockOpen := true,
      trace := s.trace ++ (openLines env p polLabel).map Ev.csv })

/-- A `close_csv_block` call from the worker (`csv_path` is always set once
a scan runs): uses `close_csv_block`; the returned Bool is whether the call
raised (which would propagate out of `run_scan`, killing the thread). -/
def closeCall (env : Env) (s : St) : Bool × St :=
  if s.blockOpen then
    let res := close_csv_block s.blockOpen true (env.closeFails s.closes).isSome
    (res.2.2, { s with
      closes := s.closes + 1,
      blockOpen := res.2.1,
      trace := s.trace ++ res.1.map Ev.csv })
  else (false, s)

/-- The angle-key dictionary `{"xy": phi, "phi0": theta, "phi90": theta,
"custom": ...}.get(mode, 0)` used both for the per-frequency live cache
(line 1347) and for the coarse 2D sweep angle (line 1364). -/
def angleKey (p : Params) (phi theta : ℚ) : ℚ :=
  match p.mode with
  | .xy => phi
  | .phi0 => theta
  | .phi90 => theta
  | .custom => if p.custom_fixed_axis = Axis.phi then theta else phi
  | .full => 0

/-- The `for f, m in zip(freqs, mags)` loop (lines 1341-1354): per pair,
append one CSV row with the value rounded via `round(m, 2)`, then feed the
unrounded value to the live sink; an append failure raises out of the loop
(caught by the enclosing VNA-error handler). -/
def emitRows (env : Env) (p : Params) (phi theta : ℚ) :
    List (ℚ × ℚ) → St → Option String × St
  | [], s => (none, s)
  | (f, m) :: rest, s =>
    match env.appendFails s.appends with
    | some msg => (some msg, { s with appends := s.appends + 1 })
    | none =>
      emitRows env p phi theta rest
        { s with
          appends := s.appends + 1,
          trace := s.trace ++ [Ev.csv (CsvLine.row phi theta f (pyRound2 m)),
                               Ev.live2d f (angleKey p phi theta) m] }

/-- The mid-band sample value (lines 1358-1359): `mags[len(freqs)//2]`,
falling back to `mags[-1]` when the index is out of range. -/
def midValOf (freqs mags : List ℚ) : ℚ :=
  if freqs.length / 2 < mags.length then mags.getD (freqs.length / 2) 0
  else (mags.getLast?).getD 0

/-- The events of the mid-band coarse plot update (lines 1356-1370): nothing
for an empty magnitude array, a 3D update for full scans, a 2D update at the
sweep angle otherwise. -/
def midTail (p : Params) (phi theta : ℚ) (freqs mags : List ℚ) : List Ev :=
  if mags.length = 0 then []
  else if p.mode = Mode.full then [Ev.plot3d phi theta (midValOf freqs mags)]
  else [Ev.plot2d (angleKey p phi theta) (midValOf freqs mags)]

/-- The mid-band coarse plot update applied to the worker state. -/
def midPlot (p : Params) (phi theta : ℚ) (freqs mags : List ℚ) (s : St) : St :=
  { s with trace := s.trace ++ midTail p phi theta freqs mags }

/-- Result of the pause-wait polling loop. -/
inductive PauseRes
  | resumed (s : St)
  | abortObserved (s : St)
  | outOfFuel (s : St)
deriving Repr

/-- The `while self.pause_flag.is_set():` loop (lines 1315-1325): each
iteration reads pause, then (when paused) abort; fuel bounds the number of
poll iterations so the model stays total. -/
def pauseWait (fl : Flags) : Nat → St → PauseRes
  | 0, s => .outOfFuel s
  | fuel + 1, s =>
    match readPause fl s with
    | (false, s) => .resumed s
    | (true, s) =>
      match readAbort fl s with
      | (true, s) => .abortObserved s
      | (false, s) => pauseWait fl fuel s

/-- The bundled scan context: validated parameters, device oracles, flag
schedules and the pause-poll fuel. -/
structure Ctx where
  p : Params
  env : Env
  fl : Flags
  fuel : Nat

/-- A terminal path shared by the abort-while-paused and device-error
branches: set the status label, then `close_csv_block` (whose raise would
be uncaught) and return. -/
def reportCloseReturn (C : Ctx) (msg : String) (s : St) : St :=
  let s1 : St := { s with trace := s.trace ++ [Ev.status msg] }
  match closeCall C.env s1 with
  | (true, s2) => { s2 with trace := s2.trace ++ [Ev.uncaught "close_csv_block"] }
  | (false, s2) => s2

/-- Result of one per-angle iteration body. -/
inductive StepRes
  | proceed (s : St)
  | returned (s : St)
deriving Repr

/-- One per-angle iteration body after the loop-top abort check
(lines 1314-1380): pause-wait (aborting from inside it issues a best-effort
home move, reports "Scan aborted.", closes the block and returns), then
move + idle-wait (a raise reports "Positioner error", closes, returns),
then trace read + row/live emission (a raise reports "VNA error", closes,
returns), then the mid-band plot update. -/
def scanStep (C : Ctx) (phi theta : ℚ) (s : St) : StepRes :=
  match pauseWait C.fl C.fuel s with
  | .outOfFuel s => .returned { s with trace := s.trace ++ [Ev.uncaught "pause-wait fuel"] }
  | .abortObserved s =>
    let (_, s) := posMoveCall C.env 0 0 s
    .returned (reportCloseReturn C "Scan aborted." s)
  | .resumed s =>
    match posMoveCall C.env phi theta s with
    | (some msg, s) => .returned (reportCloseReturn C ("Positioner error: " ++ msg) s)
    | (none, s) =>
      match posWaitCall C.env s with
      | (some msg, s) => .returned (reportCloseReturn C ("Positioner error: " ++ msg) s)
      | (none, s) =>
        match vnaReadCall C.env s with
        | (.error msg, s) => .returned (reportCloseReturn C ("VNA error: " ++ msg) s)
        | (.ok (freqs, mags), s) =>
          match emitRows C.env C.p phi theta (freqs.zip mags) s with
          | (some msg, s) => .returned (reportCloseReturn C ("VNA error: " ++ msg) s)
          | (none, s) => .proceed (midPlot C.p phi theta freqs mags s)

/-- Result of a loop: it either finished (normally or by an abort `break`)
or `run_scan` returned / the thread died inside it. -/
inductive Flow
  | cont (s : St)
  | halt (s : St)
deriving Repr

/-- The inner `for theta in theta_range:` loop (lines 1310-1380). -/
def thetaLoop (C : Ctx) (phi : ℚ) : List ℚ → St → Flow
  | [], s => .cont s
  | theta :: rest, s =>
    match readAbort C.fl s with
    | (true, s) => .cont s
    | (false, s) =>
      match scanStep C phi theta s with
      | .returned s => .halt s
      | .proceed s => thetaLoop C phi rest s

/-- The outer `for phi in phi_range:` loop (lines 1306-1386); the
frequency-dropdown refresh at the end of each phi row is UI-only. -/
def phiLoop (C : Ctx) (thetas : List ℚ) : List ℚ → St → Flow
  | [], s => .cont s
  | phi :: rest, s =>
    match readAbort C.fl s with
    | (true, s) => .cont s
    | (false, s) =>
      match thetaLoop C phi thetas s with
      | .halt s => .halt s
      | .cont s => phiLoop C thetas rest s

/-- The terminal status message (lines 1409-1412). -/
def completeMsg : PolMode → String
  | .both => "Scan complete (both polarizations). Results saved."
  | .vertical => "Scan complete (vertical). Results saved."
  | .horizontal => "Scan complete (horizontal). Results saved."

/-- The polarization loop (lines 1255-1393): per (label, angle) in the
plan: abort check, rotation move (non-fatal), status update, open a fresh
CSV block (a raise reports "CSV error" and returns), the angle loops, then
close the block; the plot-clearing on the second "both" pass is UI-only. -/
def polLoop (C : Ctx) (phis thetas : List ℚ) : List (String × ℚ) → St → Flow
  | [], s => .cont s
  | (lab, ang) :: rest, s =>
    match readAbort C.fl s with
    | (true, s) => .cont s
    | (false, s) =>
      let s := setRotationDeg C.env ang s
      let s : St := { s with trace := s.trace ++ [Ev.status ("Scanning… (" ++ lab ++ ")")] }
      match openCsvBlock C.env C.p (some lab) s with
      | (some msg, s) => .halt { s with trace := s.trace ++ [Ev.status ("CSV error: " ++ msg)] }
      | (none, s) =>
        match phiLoop C thetas phis s with
        | .halt s => .halt s
        | .cont s =>
          match closeCall C.env s with
          | (true, s) => .halt { s with trace := s.trace ++ [Ev.uncaught "close_csv_block"] }
          | (false, s) => polLoop C phis thetas rest s

/-- The finish block of `run_scan` (lines 1395-1418): best-effort home
move and idle wait (exceptions swallowed), best-effort vertical restore,
then the terminal status chosen by a last read of the abort flag. -/
def finishRun (C : Ctx) (s : St) : St :=
  let (_, s1) := posMoveCall C.env 0 0 s
  let (_, s2) := posWaitCall C.env s1
  let s3 := restoreVertical C.env s2
  match readAbort C.fl s3 with
  | (true, s4) => { s4 with trace := s4.trace ++ [Ev.status "Scan aborted."] }
  | (false, s4) => { s4 with trace := s4.trace ++ [Ev.status (completeMsg C.p.polMode)] }

/-- `run_scan` (lines 1192-1418): home to (0,0) (a raise reports
"Positioner error" and returns), precompute the angle ranges once, run the
polarization loop, then the finish block. -/
def run_scan (C : Ctx) : St :=
  match posMoveCall C.env 0 0 St.init with
  | (some msg, s) => { s with trace := s.trace ++ [Ev.status ("Positioner error: " ++ msg)] }
  | (none, s) =>
    match posWaitCall C.env s with
    | (some msg, s) => { s with trace := s.trace ++ [Ev.status ("Positioner error: " ++ msg)] }
    | (none, s) =>
      match polLoop C (phi_range C.p) (theta_range C.p) (polPlan C.p.polMode) s with
      | .halt s => s
      | .cont s => finishRun C s

/-! ### Derived trace shapes (specification-side descriptions of
failure-free executions, proved to characterize the interpreter) -/

/-- The events the measurement loop emits for a list of (freq, mag) pairs
when no append fails: per pair, one CSV row (rounded) and one live sample
(unrounded). -/
def rowTail (p : Params) (phi theta : ℚ) (pairs : List (ℚ × ℚ)) : List Ev :=
  pairs.flatMap (fun fm =>
    [Ev.csv (CsvLine.row phi theta fm.1 (pyRound2 fm.2)),
     Ev.live2d fm.1 (angleKey p phi theta) fm.2])

/-- The events of one failure-free, unpaused per-angle iteration. -/
def stepTail (p : Params) (phi theta : ℚ) (freqs mags : List ℚ) : List Ev :=
  [Ev.checkPause false, Ev.dev (DevCall.posMove phi theta),
   Ev.dev (DevCall.posWaitIdle 60), Ev.dev DevCall.vnaReadTrace]
  ++ rowTail p phi theta (freqs.zip mags)
  ++ midTail p phi theta freqs mags

/-- The CSV data rows of one failure-free polarization pass, in grid order. -/
def passRows (p : Params) (freqs mags : List ℚ) : List CsvLine :=
  (phi_range p).flatMap (fun phi => (theta_range p).flatMap (fun theta =>
    (freqs.zip mags).map (fun fm => CsvLine.row phi theta fm.1 (pyRound2 fm.2))))

/-- The CSV lines of one complete block (one polarization pass). -/
def blockLines (env : Env) (p : Params) (lab : String) (freqs mags : List ℚ) :
    List CsvLine :=
  openLines env p (some lab) ++ passRows p freqs mags ++ [CsvLine.testEnd]

/-- The events of one failure-free inner theta loop at a fixed phi. -/
def thetaTail (p : Params) (phi : ℚ) (freqs mags : List ℚ) (thetas : List ℚ) : List Ev :=
  thetas.flatMap (fun theta => Ev.checkAbort false :: stepTail p phi theta freqs mags)

/-- The events of one failure-free outer phi loop. -/
def phiTail (p : Params) (freqs mags : List ℚ) (thetas phis : List ℚ) : List Ev :=
  phis.flatMap (fun phi => Ev.checkAbort false :: thetaTail p phi freqs mags thetas)

/-- The worker state right after the successful initial homing of
`run_scan` (two positioner calls, nothing else). -/
def homedSt : St :=
  { checks := 0, posCalls := 2, rotCalls := 0, vnaCalls := 0, opens := 0, appends := 0
    closes := 0, blockOpen := false, lastRot := none
    trace := [Ev.dev (DevCall.posMove 0 0), Ev.dev (DevCall.posWaitIdle 60)] }

/-- The worker state after one complete failure-free polarization pass
(abort check, rotation move, status, block open, angle loops, block
close), starting from `s`. -/
def polPassSt (C : Ctx) (freqs mags : List ℚ) (lab : String) (ang : ℚ) (s : St) : St :=
  let s1 := setRotationDeg C.env ang
    { s with checks := s.checks + 1, trace := s.trace ++ [Ev.checkAbort false] }
  { s1 with
    checks := s1.checks + (phi_range C.p).length * (1 + 2 * (theta_range C.p).length),
    posCalls := s1.posCalls + (phi_range C.p).length * (2 * (theta_range C.p).length),
    vnaCalls := s1.vnaCalls + (phi_range C.p).length * (theta_range C.p).length,
    opens := s1.opens + 1,
    appends := s1.appends
      + (phi_range C.p).length * ((theta_range C.p).length * (freqs.zip mags).length),
    closes := s1.closes + 1,
    blockOpen := false,
    trace := (((s1.trace ++ [Ev.status ("Scanning… (" ++ lab ++ ")")])
      ++ (openLines C.env C.p (some lab)).map Ev.csv)
      ++ phiTail C.p freqs mags (theta_range C.p) (phi_range C.p))
      ++ [Ev.csv CsvLine.testEnd] }

/-- Selectors on CSV lines. -/
def isStart : CsvLine → Bool
  | .testStart => true
  | _ => false

def isEnd : CsvLine → Bool
  | .testEnd => true
  | _ => false

def isConfig : CsvLine → Bool
  | .configJson _ => true
  | _ => false

def isHeaderLine : CsvLine → Bool
  | .header _ => true
  | _ => false

def isRow : CsvLine → Bool
  | .row _ _ _ _ => true
  | _ => false

/-- A device event selector on trace events. -/
def isDevEv : Ev → Bool
  | .dev _ => true
  | _ => false

/-! ### Concrete fixtures -/

/-- A device environment in which every call succeeds; the VNA always
returns the single-point trace `([8.0], [-3.0])`. -/
def cleanEnv : Env :=
  { posFails := fun _ => none
    vnaRead := fun _ => Except.ok ([8], [-3])
    hasRot := true
    rotMoveFails := fun _ => none
    rotWaitDone := fun _ => Except.ok true
    rotEstFails := fun _ => none
    openFails := fun _ => none
    appendFails := fun _ => none
    closeFails := fun _ => none
    vnaIdent := some "VNAController"
    posIdent := some "SerialController" }

/-- Flag schedules with pause and abort never set. -/
def quietFlags : Flags :=
  { abortAt := fun _ => false, pauseAt := fun _ => false }

/-- The §8.7 end-to-end scenario parameters: XY slice, `phi_step = 90`,
8-8 GHz, 1 point, vertical polarization only, VNA untouched. -/
def xyParams : Params :=
  { mode := Mode.xy, theta_step := 1, phi_step := 90
    custom_fixed_axis := Axis.phi, custom_fixed_angle := 0, custom_step_size := 1
    freq_start := 8, freq_stop := 8, freq_points := 1, power_level := 0
    selected_format := "LOGM", polMode := PolMode.vertical, no_vna := true
    plot_title := "Live Pattern", show_grid := false, y_axis_limits := none
    test_label := "XY Slice (theta = 90)" }

/-- The end-to-end scenario context. -/
def c8ctx : Ctx := { p := xyParams, env := cleanEnv, fl := quietFlags, fuel := 1 }

/-- A single-angle XY slice (`phi_step = 360` gives the one angle (0, 90)). -/
def oneAngleParams : Params := { xyParams with phi_step := 360 }

/-- Environment whose third positioner call (the first in-loop move) raises. -/
def posFailEnv : Env :=
  { cleanEnv with posFails := fun n => if n = 2 then some "boom" else none }

/-- Context for a scan whose first in-loop positioner move raises. -/
def c2ctx : Ctx := { p := oneAngleParams, env := posFailEnv, fl := quietFlags, fuel := 1 }

/-- Flag schedules that set pause from the 4th flag read on and abort from
the 5th on: the worker sees pause at the first per-angle pause poll and
abort at the in-pause abort poll. -/
def pauseAbortFlags : Flags :=
  { abortAt := fun n => decide (4 ≤ n), pauseAt := fun n => decide (3 ≤ n) }

/-- Context for a scan paused and then aborted inside the pause-wait loop. -/
def c3ctx : Ctx := { p := oneAngleParams, env := cleanEnv, fl := pauseAbortFlags, fuel := 2 }

/-- Environment whose first rotation-stage move raises. -/
def rotFailEnv : Env :=
  { cleanEnv with rotMoveFails := fun n => if n = 0 then some "rot-fail" else none }

/-- Context for a scan whose rotation-stage move raises. -/
def c4ctx : Ctx := { p := oneAngleParams, env := rotFailEnv, fl := quietFlags, fuel := 1 }

/-- Full-spherical parameters with `theta_step = 7` (7 does not divide 180). -/
def fullStep7Params : Params :=
  { xyParams with mode := Mode.full, theta_step := 7, phi_step := 90 }

/-- Flags with pause and abort both set from the start. -/
def pausedAbortFlags : Flags :=
  { abortAt := fun _ => true, pauseAt := fun _ => true }

/-- A scan context already paused and abort-requested. -/
def c3StepCtx : Ctx :=
  { p := xyParams, env := cleanEnv, fl := pausedAbortFlags, fuel := 1 }

/-- A worker state with an open CSV block. -/
def openBlockSt : St := { St.init with blockOpen := true }

/-- Raw form inputs with `freq_start = freq_stop = 8` and every
check the source performs satisfied. -/
def eqFreqRaw : RawInputs :=
  { mode := Mode.full, theta_step := 10, phi_step := 10, fixed_axis := "phi"
    fixed_angle := 0, step_size := 1, freq_start := 8, freq_stop := 8
    freq_points := 201, no_vna := false, power := 0, selected_format := "LOGM"
    y_min := -60, y_max := 0, polMode := PolMode.vertical }

/-- Raw form inputs identical to `eqFreqRaw` except for a zero theta step. -/
def zeroStepRaw : RawInputs := { eqFreqRaw with theta_step := 0 }

/-- Full-spherical parameters with `theta_step = 10` (10 divides 180). -/
def fullStep10Params : Params :=
  { xyParams with mode := Mode.full, theta_step := 10, phi_step := 90 }

/-- Hypotheses for a failure-free, uninterrupted scan: pause fuel
available, neither flag ever set, no positioner / VNA-read / CSV failure,
and the VNA returning the same trace `(freqs, mags)` on every read.  The
rotation-stage oracles are deliberately unconstrained. -/
structure CleanRun (C : Ctx) (freqs mags : List ℚ) : Prop where
  fuelPos : 0 < C.fuel
  abortOff : ∀ n, C.fl.abortAt n = false
  pauseOff : ∀ n, C.fl.pauseAt n = false
  posOk : ∀ n, C.env.posFails n = none
  vnaOk : ∀ n, C.env.vnaRead n = Except.ok (freqs, mags)
  openOk : ∀ n, C.env.openFails n = none
  appendOk : ∀ n, C.env.appendFails n = none
  closeOk : ∀ n, C.env.closeFails n = none

/-! ## Helper lemmas -/

theorem mem_arange {start stop step : ℚ} (h : 0 < step) (x : ℚ) :
    x ∈ arange start stop step ↔ ∃ k : ℕ, x = start + k * step ∧ x < stop := by
  unfold arange
  rw [if_pos h, List.mem_map]
  constructor
  · rintro ⟨k, hk, rfl⟩
    rw [List.mem_range, Int.lt_toNat, Int.lt_ceil] at hk
    refine ⟨k, rfl, ?_⟩
    have h3 : (k : ℚ) < (stop - start) / step := by exact_mod_cast hk
    have hk2 : (k : ℚ) * step < stop - start := by
      calc (k : ℚ) * step < ((stop - start) / step) * step :=
            mul_lt_mul_of_pos_right h3 h
        _ = stop - start := div_mul_cancel₀ _ (ne_of_gt h)
    linarith
  · rintro ⟨k, rfl, hlt⟩
    refine ⟨k, ?_, rfl⟩
    rw [List.mem_range, Int.lt_toNat, Int.lt_ceil]
    have hk2 : (k : ℚ) < (stop - start) / step := by
      rw [lt_div_iff₀ h]
      linarith
    exact_mod_cast hk2

theorem length_flatMap_const {α β : Type} (f : α → List β) (c : Nat)
    (h : ∀ a, (f a).length = c) :
    ∀ l : List α, (l.flatMap f).length = l.length * c
  | [] => by simp
  | a :: l => by
    simp [List.flatMap_cons, h a, length_flatMap_const f c h l, Nat.succ_mul, Nat.add_comm]

theorem angleGrid_length (p : Params) :
    (angleGrid p).length = (phi_range p).length * (theta_range p).length := by
  unfold angleGrid
  exact length_flatMap_const _ _ (fun a => List.length_map _ _) _

theorem csvOf_append (a b : List Ev) : csvOf (a ++ b) = csvOf a ++ csvOf b :=
  List.filterMap_append a b _

theorem statusOf_append (a b : List Ev) : statusOf (a ++ b) = statusOf a ++ statusOf b :=
  List.filterMap_append a b _

theorem liveOf_append (a b : List Ev) : liveOf (a ++ b) = liveOf a ++ liveOf b :=
  List.filterMap_append a b _

theorem csvOf_map_csv (l : List CsvLine) : csvOf (l.map Ev.csv) = l := by
  induction l with
  | nil => rfl
  | cons x l ih => simp [csvOf] at ih ⊢; exact ih

theorem csvOf_rowTail (p : Params) (phi theta : ℚ) (pairs : List (ℚ × ℚ)) :
    csvOf (rowTail p phi theta pairs)
      = pairs.map (fun fm => CsvLine.row phi theta fm.1 (pyRound2 fm.2)) := by
  induction pairs with
  | nil => rfl
  | cons fm rest ih =>
    simp only [rowTail, List.flatMap_cons] at ih ⊢
    rw [csvOf_append, ih]
    rfl

theorem liveOf_rowTail (p : Params) (phi theta : ℚ) (pairs : List (ℚ × ℚ)) :
    liveOf (rowTail p phi theta pairs)
      = pairs.map (fun fm => (fm.1, angleKey p phi theta, fm.2)) := by
  induction pairs with
  | nil => rfl
  | cons fm rest ih =>
    simp only [rowTail, List.flatMap_cons] at ih ⊢
    rw [liveOf_append, ih]
    rfl

theorem csvOf_midTail (p : Params) (phi theta : ℚ) (freqs mags : List ℚ) :
    csvOf (midTail p phi theta freqs mags) = [] := by
  unfold midTail
  split
  · rfl
  · split <;> rfl

theorem csvOf_stepTail (p : Params) (phi theta : ℚ) (freqs mags : List ℚ) :
    csvOf (stepTail p phi theta freqs mags)
      = (freqs.zip mags).map (fun fm => CsvLine.row phi theta fm.1 (pyRound2 fm.2)) := by
  unfold stepTail
  rw [csvOf_append, csvOf_append, csvOf_rowTail, csvOf_midTail]
  simp [csvOf]

theorem csvOf_thetaTail (p : Params) (phi : ℚ) (freqs mags : List ℚ) (thetas : List ℚ) :
    csvOf (thetaTail p phi freqs mags thetas)
      = thetas.flatMap (fun theta =>
          (freqs.zip mags).map (fun fm => CsvLine.row phi theta fm.1 (pyRound2 fm.2))) := by
  induction thetas with
  | nil => rfl
  | cons theta rest ih =>
    simp only [thetaTail, List.flatMap_cons] at ih ⊢
    rw [csvOf_append, ih]
    congr 1
    show csvOf (Ev.checkAbort false :: stepTail p phi theta freqs mags) = _
    show csvOf (stepTail p phi theta freqs mags) = _
    exact csvOf_stepTail p phi theta freqs mags

theorem csvOf_phiTail (p : Params) (freqs mags : List ℚ) (thetas phis : List ℚ) :
    csvOf (phiTail p freqs mags thetas phis)
      = phis.flatMap (fun phi => thetas.flatMap (fun theta =>
          (freqs.zip mags).map (fun fm => CsvLine.row phi theta fm.1 (pyRound2 fm.2)))) := by
  induction phis with
  | nil => rfl
  | cons phi rest ih =>
    simp only [phiTail, List.flatMap_cons] at ih ⊢
    rw [csvOf_append, ih]
    congr 1
    show csvOf (Ev.checkAbort false :: thetaTail p phi freqs mags thetas) = _
    show csvOf (thetaTail p phi freqs mags thetas) = _
    exact csvOf_thetaTail p phi freqs mags thetas

theorem csvOf_phiTail_ranges (p : Params) (freqs mags : List ℚ) :
    csvOf (phiTail p freqs mags (theta_range p) (phi_range p)) = passRows p freqs mags :=
  csvOf_phiTail p freqs mags (theta_range p) (phi_range p)

/-! ## Frame lemmas for the rotation stage and CSV primitives -/

theorem setRotationRun_frame (env : Env) (a : ℚ) (s : St) :
    ∃ t, (setRotationRun env a s).trace = s.trace ++ t
      ∧ csvOf t = []
      ∧ (setRotationRun env a s).blockOpen = s.blockOpen := by
  unfold setRotationRun
  cases hm : env.rotMoveFails s.rotCalls with
  | some msg =>
    exact ⟨[Ev.dev (DevCall.rotMoveAbs a), Ev.status ("Rotation stage error: " ++ msg)],
      by simp, rfl, rfl⟩
  | none =>
    cases hw : env.rotWaitDone (s.rotCalls + 1) with
    | ok b =>
      cases b with
      | true =>
        exact ⟨[Ev.dev (DevCall.rotMoveAbs a), Ev.dev DevCall.rotWaitDone],
          by simp [hw], rfl, by simp [hw]⟩
      | false =>
        cases he : env.rotEstFails (s.rotCalls + 1 + 1) with
        | some msg =>
          exact ⟨[Ev.dev (DevCall.rotMoveAbs a), Ev.dev DevCall.rotWaitDone,
                  Ev.dev (DevCall.rotWaitEstimate
                    (match s.lastRot with | none => a | some l => a - l)),
                  Ev.status ("Rotation stage error: " ++ msg)],
            by simp [hw, he], rfl, by simp [hw, he]⟩
        | none =>
          exact ⟨[Ev.dev (DevCall.rotMoveAbs a), Ev.dev DevCall.rotWaitDone,
                  Ev.dev (DevCall.rotWaitEstimate
                    (match s.lastRot with | none => a | some l => a - l))],
            by simp [hw, he], rfl, by simp [hw, he]⟩
    | error msg =>
      cases he : env.rotEstFails (s.rotCalls + 1 + 1) with
      | some m2 =>
        exact ⟨[Ev.dev (DevCall.rotMoveAbs a), Ev.dev DevCall.rotWaitDone,
                Ev.dev (DevCall.rotWaitEstimate
                  (match s.lastRot with | none => a | some l => a - l)),
                Ev.status ("Rotation stage error: " ++ m2)],
          by simp [hw, he], rfl, by simp [hw, he]⟩
      | none =>
        exact ⟨[Ev.dev (DevCall.rotMoveAbs a), Ev.dev DevCall.rotWaitDone,
                Ev.dev (DevCall.rotWaitEstimate
                  (match s.lastRot with | none => a | some l => a - l))],
          by simp [hw, he], rfl, by simp [hw, he]⟩

theorem setRotationDeg_frame (env : Env) (a : ℚ) (s : St) :
    ∃ t, (setRotationDeg env a s).trace = s.trace ++ t
      ∧ csvOf t = []
      ∧ (setRotationDeg env a s).blockOpen = s.blockOpen := by
  unfold setRotationDeg
  split
  · exact ⟨[], by simp, rfl, rfl⟩
  · split
    · split
      · exact ⟨[], by simp, rfl, rfl⟩
      · exact setRotationRun_frame env a s
    · exact setRotationRun_frame env a s

theorem restoreVertical_frame (env : Env) (s : St) :
    ∃ t, (restoreVertical env s).trace = s.trace ++ t
      ∧ csvOf t = [] ∧ statusOf t = []
      ∧ (restoreVertical env s).blockOpen = s.blockOpen := by
  unfold restoreVertical
  split
  · exact ⟨[], by simp, rfl, rfl, rfl⟩
  · cases hm : env.rotMoveFails s.rotCalls with
    | some msg =>
      exact ⟨[Ev.dev (DevCall.rotMoveAbs 0)], by simp [hm], rfl, rfl, by simp [hm]⟩
    | none =>
      cases hw : env.rotWaitDone (s.rotCalls + 1) with
      | ok b =>
        cases b with
        | true =>
          exact ⟨[Ev.dev (DevCall.rotMoveAbs 0), Ev.dev DevCall.rotWaitDone],
            by simp [hm, hw], rfl, rfl, by simp [hm, hw]⟩
        | false =>
          cases he : env.rotEstFails (s.rotCalls + 1 + 1) with
          | some m2 =>
            exact ⟨[Ev.dev (DevCall.rotMoveAbs 0), Ev.dev DevCall.rotWaitDone,
                    Ev.dev (DevCall.rotWaitEstimate
                      (match s.lastRot with | none => 0 | some l => -l))],
              by simp [hm, hw, he], rfl, rfl, by simp [hm, hw, he]⟩
          | none =>
            exact ⟨[Ev.dev (DevCall.rotMoveAbs 0), Ev.dev DevCall.rotWaitDone,
                    Ev.dev (DevCall.rotWaitEstimate
                      (match s.lastRot with | none => 0 | some l => -l))],
              by simp [hm, hw, he], rfl, rfl, by simp [hm, hw, he]⟩
      | error msg =>
        cases he : env.rotEstFails (s.rotCalls + 1 + 1) with
        | some m2 =>
          exact ⟨[Ev.dev (DevCall.rotMoveAbs 0), Ev.dev DevCall.rotWaitDone,
                  Ev.dev (DevCall.rotWaitEstimate
                    (match s.lastRot with | none => 0 | some l => -l))],
            by simp [hm, hw, he], rfl, rfl, by simp [hm, hw, he]⟩
        | none =>
          exact ⟨[Ev.dev (DevCall.rotMoveAbs 0), Ev.dev DevCall.rotWaitDone,
                  Ev.dev (DevCall.rotWaitEstimate
                    (match s.lastRot with | none => 0 | some l => -l))],
            by simp [hm, hw, he], rfl, rfl, by simp [hm, hw, he]⟩

theorem openCsvBlock_clean (env : Env) (p : Params) (polLabel : Option String)
    (hopen : ∀ n, env.openFails n = none) (s : St) :
    openCsvBlock env p polLabel s =
      (none, { s with
        opens := s.opens + 1,
        blockOpen := true,
        trace := s.trace ++ (openLines env p polLabel).map Ev.csv }) := by
  unfold openCsvBlock
  rw [hopen]

theorem closeCall_clean (env : Env)
    (hclose : ∀ n, env.closeFails n = none) (s : St) (hbo : s.blockOpen = true) :
    closeCall env s =
      (false, { s with
        closes := s.closes + 1,
        blockOpen := false,
        trace := s.trace ++ [Ev.csv CsvLine.testEnd] }) := by
  unfold closeCall close_csv_block
  rw [hbo, hclose]
  simp

theorem readAbort_clean (fl : Flags) (habort : ∀ n, fl.abortAt n = false) (s : St) :
    readAbort fl s =
      (false, { s with checks := s.checks + 1, trace := s.trace ++ [Ev.checkAbort false] }) := by
  unfold readAbort
  rw [habort]

theorem pauseWait_clean (fl : Flags) (hpause : ∀ n, fl.pauseAt n = false) (fu : Nat) (s : St) :
    pauseWait fl (fu + 1) s = PauseRes.resumed
      { s with checks := s.checks + 1, trace := s.trace ++ [Ev.checkPause false] } := by
  show (match readPause fl s with
    | (false, s) => PauseRes.resumed s
    | (true, s) =>
      match readAbort fl s with
      | (true, s) => PauseRes.abortObserved s
      | (false, s) => pauseWait fl fu s) = _
  unfold readPause
  rw [hpause]

theorem emitRows_clean_eq (env : Env) (p : Params) (phi theta : ℚ)
    (happ : ∀ n, env.appendFails n = none) :
    ∀ (pairs : List (ℚ × ℚ)) (s : St),
      emitRows env p phi theta pairs s =
        (none, { s with
          appends := s.appends + pairs.length,
          trace := s.trace ++ rowTail p phi theta pairs })
  | [], s => by simp [emitRows, rowTail]
  | (f, m) :: rest, s => by
    rw [emitRows, happ]
    rw [emitRows_clean_eq env p phi theta happ rest]
    refine congrArg (Prod.mk none) ?_
    have hra : s.appends + 1 + rest.length = s.appends + (rest.length + 1) := by omega
    simp [rowTail, List.flatMap_cons, List.append_assoc, hra]

theorem scanStep_clean_eq (C : Ctx) (freqs mags : List ℚ) (phi theta : ℚ)
    (hfuel : 0 < C.fuel)
    (hpause : ∀ n, C.fl.pauseAt n = false)
    (hpos : ∀ n, C.env.posFails n = none)
    (hvna : ∀ n, C.env.vnaRead n = Except.ok (freqs, mags))
    (happ : ∀ n, C.env.appendFails n = none) (s : St) :
    scanStep C phi theta s = StepRes.proceed
      { s with
        checks := s.checks + 1,
        posCalls := s.posCalls + 2,
        vnaCalls := s.vnaCalls + 1,
        appends := s.appends + (freqs.zip mags).length,
        trace := s.trace ++ stepTail C.p phi theta freqs mags } := by
  obtain ⟨fu, hfu⟩ : ∃ fu, C.fuel = fu + 1 := ⟨C.fuel - 1, by omega⟩
  unfold scanStep
  rw [hfu, pauseWait_clean C.fl hpause fu s]
  simp only [posMoveCall, posWaitCall, vnaReadCall, hpos, hvna,
    emitRows_clean_eq C.env C.p phi theta happ, midPlot]
  refine congrArg StepRes.proceed ?_
  have hpc : s.posCalls + 1 + 1 = s.posCalls + 2 := by omega
  simp [stepTail, List.append_assoc, hpc]

theorem thetaLoop_clean_eq (C : Ctx) (freqs mags : List ℚ) (phi : ℚ)
    (hfuel : 0 < C.fuel)
    (habort : ∀ n, C.fl.abortAt n = false)
    (hpause : ∀ n, C.fl.pauseAt n = false)
    (hpos : ∀ n, C.env.posFails n = none)
    (hvna : ∀ n, C.env.vnaRead n = Except.ok (freqs, mags))
    (happ : ∀ n, C.env.appendFails n = none) :
    ∀ (thetas : List ℚ) (s : St),
      thetaLoop C phi thetas s = Flow.cont
        { s with
          checks := s.checks + 2 * thetas.length,
          posCalls := s.posCalls + 2 * thetas.length,
          vnaCalls := s.vnaCalls + thetas.length,
          appends := s.appends + thetas.length * (freqs.zip mags).length,
          trace := s.trace ++ thetaTail C.p phi freqs mags thetas }
  | [], s => by simp [thetaLoop, thetaTail]
  | theta :: rest, s => by
    simp only [thetaLoop, readAbort_clean C.fl habort,
      scanStep_clean_eq C freqs mags phi theta hfuel hpause hpos hvna happ,
      thetaLoop_clean_eq C freqs mags phi hfuel habort hpause hpos hvna happ rest]
    refine congrArg Flow.cont ?_
    apply St.ext <;>
      simp [thetaTail, List.flatMap_cons, List.append_assoc] <;> ring

theorem phiLoop_clean_eq (C : Ctx) (freqs mags : List ℚ) (thetas : List ℚ)
    (hfuel : 0 < C.fuel)
    (habort : ∀ n, C.fl.abortAt n = false)
    (hpause : ∀ n, C.fl.pauseAt n = false)
    (hpos : ∀ n, C.env.posFails n = none)
    (hvna : ∀ n, C.env.vnaRead n = Except.ok (freqs, mags))
    (happ : ∀ n, C.env.appendFails n = none) :
    ∀ (phis : List ℚ) (s : St),
      phiLoop C thetas phis s = Flow.cont
        { s with
          checks := s.checks + phis.length * (1 + 2 * thetas.length),
          posCalls := s.posCalls + phis.length * (2 * thetas.length),
          vnaCalls := s.vnaCalls + phis.length * thetas.length,
          appends := s.appends + phis.length * (thetas.length * (freqs.zip mags).length),
          trace := s.trace ++ phiTail C.p freqs mags thetas phis }
  | [], s => by simp [phiLoop, phiTail]
  | phi :: rest, s => by
    simp only [phiLoop, readAbort_clean C.fl habort,
      thetaLoop_clean_eq C freqs mags phi hfuel habort hpause hpos hvna happ thetas,
      phiLoop_clean_eq C freqs mags thetas hfuel habort hpause hpos hvna happ rest]
    refine congrArg Flow.cont ?_
    apply St.ext <;>
      simp [phiTail, List.flatMap_cons, List.append_assoc] <;> ring

theorem prefix_trans_append {α : Type} {a b : List α} (h : a <+: b) (c : List α) :
    a <+: b ++ c :=
  h.trans (List.prefix_append _ _)

theorem setRotationDeg_csv (env : Env) (a : ℚ) (s : St) :
    csvOf (setRotationDeg env a s).trace = csvOf s.trace := by
  obtain ⟨t, htr, hc, _⟩ := setRotationDeg_frame env a s
  rw [htr, csvOf_append, hc, List.append_nil]

theorem setRotationDeg_blockOpen (env : Env) (a : ℚ) (s : St) :
    (setRotationDeg env a s).blockOpen = s.blockOpen := by
  obtain ⟨t, _, _, hb⟩ := setRotationDeg_frame env a s
  exact hb

theorem setRotationDeg_trace_ext (env : Env) (a : ℚ) (s : St) :
    s.trace <+: (setRotationDeg env a s).trace := by
  obtain ⟨t, htr, _, _⟩ := setRotationDeg_frame env a s
  rw [htr]
  exact List.prefix_append _ _

theorem restoreVertical_csv (env : Env) (s : St) :
    csvOf (restoreVertical env s).trace = csvOf s.trace := by
  obtain ⟨t, htr, hc, _, _⟩ := restoreVertical_frame env s
  rw [htr, csvOf_append, hc, List.append_nil]

theorem restoreVertical_status (env : Env) (s : St) :
    statusOf (restoreVertical env s).trace = statusOf s.trace := by
  obtain ⟨t, htr, _, hs, _⟩ := restoreVertical_frame env s
  rw [htr, statusOf_append, hs, List.append_nil]

theorem restoreVertical_trace_ext (env : Env) (s : St) :
    s.trace <+: (restoreVertical env s).trace := by
  obtain ⟨t, htr, _, _, _⟩ := restoreVertical_frame env s
  rw [htr]
  exact List.prefix_append _ _

theorem polLoop_cons_clean (C : Ctx) (freqs mags : List ℚ)
    (hfuel : 0 < C.fuel)
    (habort : ∀ n, C.fl.abortAt n = false)
    (hpause : ∀ n, C.fl.pauseAt n = false)
    (hpos : ∀ n, C.env.posFails n = none)
    (hvna : ∀ n, C.env.vnaRead n = Except.ok (freqs, mags))
    (hopen : ∀ n, C.env.openFails n = none)
    (happ : ∀ n, C.env.appendFails n = none)
    (hclose : ∀ n, C.env.closeFails n = none)
    (lab : String) (ang : ℚ) (rest : List (String × ℚ)) (s : St) :
    polLoop C (phi_range C.p) (theta_range C.p) ((lab, ang) :: rest) s
      = polLoop C (phi_range C.p) (theta_range C.p) rest
          (polPassSt C freqs mags lab ang s) := by
  simp only [polLoop, readAbort_clean C.fl habort,
    openCsvBlock_clean C.env C.p (some lab) hopen,
    phiLoop_clean_eq C freqs mags (theta_range C.p) hfuel habort hpause hpos hvna happ
      (phi_range C.p),
    closeCall_clean C.env hclose, polPassSt]

theorem polPassSt_blockOpen (C : Ctx) (freqs mags : List ℚ)
    (lab : String) (ang : ℚ) (s : St) :
    (polPassSt C freqs mags lab ang s).blockOpen = false := rfl

theorem polPassSt_csv (C : Ctx) (freqs mags : List ℚ) (lab : String) (ang : ℚ) (s : St) :
    csvOf (polPassSt C freqs mags lab ang s).trace
      = csvOf s.trace ++ blockLines C.env C.p lab freqs mags := by
  show csvOf (((((setRotationDeg C.env ang _).trace
      ++ [Ev.status ("Scanning… (" ++ lab ++ ")")])
      ++ (openLines C.env C.p (some lab)).map Ev.csv)
      ++ phiTail C.p freqs mags (theta_range C.p) (phi_range C.p))
      ++ [Ev.csv CsvLine.testEnd]) = _
  rw [csvOf_append, csvOf_append, csvOf_append, csvOf_append, setRotationDeg_csv,
    csvOf_append, csvOf_map_csv, csvOf_phiTail_ranges]
  simp [blockLines, csvOf, List.append_assoc]

theorem polPassSt_trace_ext (C : Ctx) (freqs mags : List ℚ) (lab : String) (ang : ℚ) (s : St) :
    s.trace <+: (polPassSt C freqs mags lab ang s).trace := by
  show s.trace <+: ((((setRotationDeg C.env ang
      { s with checks := s.checks + 1, trace := s.trace ++ [Ev.checkAbort false] }).trace
      ++ [Ev.status ("Scanning… (" ++ lab ++ ")")])
      ++ (openLines C.env C.p (some lab)).map Ev.csv)
      ++ phiTail C.p freqs mags (theta_range C.p) (phi_range C.p))
      ++ [Ev.csv CsvLine.testEnd]
  refine prefix_trans_append (prefix_trans_append (prefix_trans_append
    (prefix_trans_append ?_ _) _) _) _
  refine List.IsPrefix.trans ?_ (setRotationDeg_trace_ext C.env ang _)
  exact List.prefix_append _ _

theorem polLoop_clean (C : Ctx) (freqs mags : List ℚ)
    (hfuel : 0 < C.fuel)
    (habort : ∀ n, C.fl.abortAt n = false)
    (hpause : ∀ n, C.fl.pauseAt n = false)
    (hpos : ∀ n, C.env.posFails n = none)
    (hvna : ∀ n, C.env.vnaRead n = Except.ok (freqs, mags))
    (hopen : ∀ n, C.env.openFails n = none)
    (happ : ∀ n, C.env.appendFails n = none)
    (hclose : ∀ n, C.env.closeFails n = none) :
    ∀ (plan : List (String × ℚ)) (s : St), s.blockOpen = false →
      ∃ s', polLoop C (phi_range C.p) (theta_range C.p) plan s = Flow.cont s'
        ∧ s'.blockOpen = false
        ∧ csvOf s'.trace = csvOf s.trace
            ++ plan.flatMap (fun pol => blockLines C.env C.p pol.1 freqs mags)
        ∧ s.trace <+: s'.trace
  | [], s, hbo => ⟨s, by simp [polLoop], hbo, by simp, List.prefix_rfl⟩
  | (lab, ang) :: rest, s, hbo => by
    obtain ⟨s', hrec, hbo', hcsv', hpre'⟩ :=
      polLoop_clean C freqs mags hfuel habort hpause hpos hvna hopen happ hclose rest
        (polPassSt C freqs mags lab ang s) (polPassSt_blockOpen C freqs mags lab ang s)
    refine ⟨s', ?_, hbo', ?_, ?_⟩
    · rw [polLoop_cons_clean C freqs mags hfuel habort hpause hpos hvna hopen happ hclose
        lab ang rest s]
      exact hrec
    · rw [hcsv', polPassSt_csv]
      simp [List.flatMap_cons, List.append_assoc]
    · exact (polPassSt_trace_ext C freqs mags lab ang s).trans hpre'

theorem finishRun_clean (C : Ctx) (habort : ∀ n, C.fl.abortAt n = false) (s : St) :
    csvOf (finishRun C s).trace = csvOf s.trace
    ∧ (finishRun C s).lastStatus = some (completeMsg C.p.polMode)
    ∧ s.trace <+: (finishRun C s).trace := by
  unfold finishRun
  simp only [posMoveCall, posWaitCall, readAbort_clean C.fl habort]
  refine ⟨?_, ?_, ?_⟩
  · rw [csvOf_append, csvOf_append, restoreVertical_csv, csvOf_append, csvOf_append]
    simp [csvOf]
  · show St.lastStatus _ = _
    unfold St.lastStatus
    rw [statusOf_append, statusOf_append, restoreVertical_status,
      statusOf_append, statusOf_append]
    simp [statusOf]
  · refine List.IsPrefix.trans ?_ (prefix_trans_append (prefix_trans_append
      List.prefix_rfl _) _)
    refine List.IsPrefix.trans ?_ (restoreVertical_trace_ext C.env _)
    simp [List.append_assoc]

theorem run_scan_as_polLoop (C : Ctx) (hpos : ∀ n, C.env.posFails n = none) :
    run_scan C =
      (match polLoop C (phi_range C.p) (theta_range C.p) (polPlan C.p.polMode) homedSt with
       | Flow.halt s => s
       | Flow.cont s => finishRun C s) := by
  unfold run_scan
  simp only [posMoveCall, posWaitCall, hpos]
  rfl

theorem run_scan_clean (C : Ctx) (freqs mags : List ℚ) (h : CleanRun C freqs mags) :
    (run_scan C).csv
      = (polPlan C.p.polMode).flatMap (fun pol => blockLines C.env C.p pol.1 freqs mags)
    ∧ (run_scan C).lastStatus = some (completeMsg C.p.polMode)
    ∧ homedSt.trace <+: (run_scan C).trace := by
  obtain ⟨hfuel, habort, hpause, hpos, hvna, hopen, happ, hclose⟩ := h
  obtain ⟨s', hrec, hbo', hcsv', hpre'⟩ :=
    polLoop_clean C freqs mags hfuel habort hpause hpos hvna hopen happ hclose
      (polPlan C.p.polMode) homedSt rfl
  obtain ⟨hfc, hfs, hfp⟩ := finishRun_clean C habort s'
  rw [run_scan_as_polLoop C hpos, hrec]
  refine ⟨?_, hfs, hpre'.trans hfp⟩
  show csvOf (finishRun C s').trace = _
  rw [hfc, hcsv']
  simp [homedSt, csvOf]

/-! ## Claims -/

/-- C9: `close_csv_block` with no open block (flag down, or no csv path)
appends nothing, changes no state and does not raise; and after a
successful close the flag is down, so an immediately following close
appends nothing — no second end marker. -/
theorem C9_close_idempotent (bo ps e e2 : Bool) (h : bo = false ∨ ps = false) :
    close_csv_block bo ps e = ([], bo, false) ∧
    ((close_csv_block true true false).2.1 = false ∧
     close_csv_block (close_csv_block true true false).2.1 true e2 = ([], false, false)) := by
  rcases h with h | h <;> subst h
  · exact ⟨by cases ps <;> cases e <;> rfl, rfl, by cases e2 <;> rfl⟩
  · exact ⟨by cases bo <;> cases e <;> rfl, rfl, by cases e2 <;> rfl⟩

theorem C9_close_idempotent_witness :
    (false = false ∨ true = false) ∧
    (close_csv_block false true true = ([], false, false) ∧
     ((close_csv_block true true false).2.1 = false ∧
      close_csv_block (close_csv_block true true false).2.1 true true = ([], false, false))) :=
  ⟨Or.inl rfl, C9_close_idempotent false true true true (Or.inl rfl)⟩

/-- C10: when the end-marker append inside `close_csv_block` raises, the
`finally` clause still clears the block-open flag (nothing is appended and
the exception propagates), so every subsequent close is a no-op and the end
marker is never retried — the file keeps a dangling block. -/
theorem C10_close_error_clears_flag :
    close_csv_block true true true = ([], false, true) ∧
    close_csv_block false true true = ([], false, false) ∧
    close_csv_block false true false = ([], false, false) :=
  ⟨rfl, rfl, rfl⟩

/-- C1 (counterexample): raw inputs with `freq_start = freq_stop = 8` pass
the whole validation gate; `start_scan` then issues all ten VNA
configuration writes and spawns the worker thread — the claim that
`freq_start ≥ freq_stop` fails during validation before any device call
is false. -/
theorem C1_counterexample :
    eqFreqRaw.freq_stop ≤ eqFreqRaw.freq_start ∧
    validateInputs eqFreqRaw = none ∧
    start_scan (fun _ => none) eqFreqRaw =
      ((vnaSetupCmds eqFreqRaw).map DevCall.vnaWrite, StartResult.scanStarted) ∧
    (vnaSetupCmds eqFreqRaw).map DevCall.vnaWrite ≠ [] := by
  refine ⟨?_, ?_, ?_, ?_⟩ <;> with_unfolding_all decide

/-- C1 (amended): a non-positive step on an axis the mode's form exposes,
or an out-of-range power, makes `start_scan` fail during validation: no
device-proxy call is issued and no worker thread is spawned.  (The
relation `freq_start ≥ freq_stop` is NOT part of the gate — see the
counterexample.) -/
theorem C1_validation_gate (wf : Nat → Option String) (r : RawInputs)
    (h : (hasThetaEntry r.mode = true ∧ r.theta_step ≤ 0)
       ∨ (hasPhiEntry r.mode = true ∧ r.phi_step ≤ 0)
       ∨ r.power < -70 ∨ 5 < r.power) :
    ∃ msg, start_scan wf r = ([], StartResult.invalidInput msg) := by
  have hv : ∃ m, validateInputs r = some m := by
    unfold validateInputs
    repeat' split
    all_goals first
      | exact ⟨_, rfl⟩
      | (rename_i h1 h2 h3 h4 h5 h6
         exfalso
         rcases h with ⟨ha, hb⟩ | ⟨ha, hb⟩ | hc | hc
         · exact h1 ⟨ha, hb⟩
         · exact h2 ⟨ha, hb⟩
         · rcases not_not.mp (fun hcon => h5 hcon) with ⟨hlo, hhi⟩
           linarith
         · rcases not_not.mp (fun hcon => h5 hcon) with ⟨hlo, hhi⟩
           linarith)
  obtain ⟨m, hm⟩ := hv
  exact ⟨m, by unfold start_scan; rw [hm]⟩

theorem C1_validation_gate_witness :
    ((hasThetaEntry zeroStepRaw.mode = true ∧ zeroStepRaw.theta_step ≤ 0)
       ∨ (hasPhiEntry zeroStepRaw.mode = true ∧ zeroStepRaw.phi_step ≤ 0)
       ∨ zeroStepRaw.power < -70 ∨ 5 < zeroStepRaw.power) ∧
    ∃ msg, start_scan (fun _ => none) zeroStepRaw = ([], StartResult.invalidInput msg) :=
  ⟨Or.inl ⟨by with_unfolding_all decide, by with_unfolding_all decide⟩,
   C1_validation_gate (fun _ => none) zeroStepRaw
     (Or.inl ⟨by with_unfolding_all decide, by with_unfolding_all decide⟩)⟩

/-- C5 (counterexample): with `theta_step = 7` and `phi_step = 90` (both
positive) the full-spherical grid contains no point with theta = 180
(`np.arange(0, 181, 7)` stops at 175) — the claim that theta always spans
[0, 180] with 180 included is false. -/
theorem C5_counterexample :
    (0:ℚ) < fullStep7Params.theta_step ∧ (0:ℚ) < fullStep7Params.phi_step ∧
    fullStep7Params.mode = Mode.full ∧
    ∀ pr ∈ angleGrid fullStep7Params, pr.2 ≠ (180:ℚ) := by
  refine ⟨?_, ?_, ?_, ?_⟩ <;> with_unfolding_all decide

/-- C5 (amended): for positive steps the full-spherical grid is the
phi-major, theta-minor product of the two ranges; phi takes exactly the
multiples of `phi_step` strictly below 360; theta takes exactly the
multiples of `theta_step` strictly below 181 (so 180 appears exactly when
it is a multiple of `theta_step`, and for non-divisor steps it is absent
while a value in (180, 181) may appear); the grid length is the product of
the axis counts, and the grid is a pure function of the parameters. -/
theorem C5_grid_structure (p : Params) (hm : p.mode = Mode.full)
    (ht : 0 < p.theta_step) (hp : 0 < p.phi_step) :
    angleGrid p = (phi_range p).flatMap (fun phi => (theta_range p).map (fun theta => (phi, theta)))
    ∧ (∀ x : ℚ, x ∈ phi_range p ↔ ∃ k : ℕ, x = k * p.phi_step ∧ x < 360)
    ∧ (∀ x : ℚ, x ∈ theta_range p ↔ ∃ k : ℕ, x = k * p.theta_step ∧ x < 181)
    ∧ (angleGrid p).length = (phi_range p).length * (theta_range p).length := by
  refine ⟨rfl, ?_, ?_, angleGrid_length p⟩
  · intro x
    have : phi_range p = arange 0 360 p.phi_step := by
      unfold phi_range; rw [hm]
    rw [this, mem_arange hp]
    simp [zero_add]
  · intro x
    have : theta_range p = arange 0 181 p.theta_step := by
      unfold theta_range; rw [hm]
    rw [this, mem_arange ht]
    simp [zero_add]

theorem C5_grid_structure_witness :
    fullStep10Params.mode = Mode.full ∧
    (0:ℚ) < fullStep10Params.theta_step ∧ (0:ℚ) < fullStep10Params.phi_step ∧
    (angleGrid fullStep10Params
       = (phi_range fullStep10Params).flatMap
           (fun phi => (theta_range fullStep10Params).map (fun theta => (phi, theta)))
     ∧ (∀ x : ℚ, x ∈ phi_range fullStep10Params
          ↔ ∃ k : ℕ, x = k * fullStep10Params.phi_step ∧ x < 360)
     ∧ (∀ x : ℚ, x ∈ theta_range fullStep10Params
          ↔ ∃ k : ℕ, x = k * fullStep10Params.theta_step ∧ x < 181)
     ∧ (angleGrid fullStep10Params).length
         = (phi_range fullStep10Params).length * (theta_range fullStep10Params).length) :=
  ⟨rfl, by with_unfolding_all decide, by with_unfolding_all decide,
   C5_grid_structure fullStep10Params rfl
     (by with_unfolding_all decide) (by with_unfolding_all decide)⟩

theorem countP_flatMap_const {α β : Type} (sel : β → Bool) (f : α → List β) (c : Nat)
    (h : ∀ a, (f a).countP sel = c) :
    ∀ l : List α, (l.flatMap f).countP sel = l.length * c
  | [] => by simp
  | a :: l => by
    simp [List.flatMap_cons, List.countP_append, h a,
      countP_flatMap_const sel f c h l, Nat.succ_mul, Nat.add_comm]

theorem countP_passRows (p : Params) (freqs mags : List ℚ) (sel : CsvLine → Bool)
    (hrow : ∀ a b c d, sel (CsvLine.row a b c d) = false) :
    (passRows p freqs mags).countP sel = 0 := by
  rw [List.countP_eq_zero]
  intro x hx
  unfold passRows at hx
  simp only [List.mem_flatMap, List.mem_map] at hx
  obtain ⟨phi, _, theta, _, fm, _, rfl⟩ := hx
  simp [hrow]

theorem blockLines_shape (env : Env) (p : Params) (lab : String) (freqs mags : List ℚ) :
    (blockLines env p lab freqs mags).countP isStart = 1
    ∧ (blockLines env p lab freqs mags).countP isEnd = 1
    ∧ (blockLines env p lab freqs mags).countP isConfig = 1
    ∧ (blockLines env p lab freqs mags).countP isHeaderLine = 1
    ∧ (blockLines env p lab freqs mags).head? = some CsvLine.testStart
    ∧ (blockLines env p lab freqs mags).getLast? = some CsvLine.testEnd
    ∧ CsvLine.configJson (buildConfig p (some lab)) ∈ blockLines env p lab freqs mags
    ∧ CsvLine.header ["Phi (deg)", "Theta (deg)", "Frequency (GHz)",
        formatLabel p.selected_format] ∈ blockLines env p lab freqs mags := by
  have h1 := countP_passRows p freqs mags isStart (fun _ _ _ _ => rfl)
  have h2 := countP_passRows p freqs mags isEnd (fun _ _ _ _ => rfl)
  have h3 := countP_passRows p freqs mags isConfig (fun _ _ _ _ => rfl)
  have h4 := countP_passRows p freqs mags isHeaderLine (fun _ _ _ _ => rfl)
  have hLast : (blockLines env p lab freqs mags).getLast? = some CsvLine.testEnd := by
    simp [blockLines, List.getLast?_append_of_ne_nil]
  refine ⟨?_, ?_, ?_, ?_, ?_, hLast, ?_, ?_⟩ <;>
    unfold blockLines openLines <;>
    cases env.vnaIdent <;> cases env.posIdent <;>
    simp_all [List.countP_append, List.countP_cons, isStart, isEnd, isConfig, isHeaderLine]

/-- C8: the §8.7 end-to-end scenario — XY slice with `phi_step = 90`,
8-8 GHz, 1 frequency point, plan [(vertical, 0)], VNA returning the single
point (8.0, -3.0) at every angle — visits exactly
[(0,90), (90,90), (180,90), (270,90)], writes exactly the four expected
data rows inside one single start/end block, and ends with the
scan-complete status. -/
theorem C8_end_to_end :
    angleGrid xyParams = [(0, 90), (90, 90), (180, 90), (270, 90)] ∧
    (run_scan c8ctx).csv =
      openLines cleanEnv xyParams (some "vertical")
        ++ [CsvLine.row 0 90 8 (-3), CsvLine.row 90 90 8 (-3),
            CsvLine.row 180 90 8 (-3), CsvLine.row 270 90 8 (-3)]
        ++ [CsvLine.testEnd] ∧
    ((run_scan c8ctx).csv.countP isStart = 1 ∧ (run_scan c8ctx).csv.countP isEnd = 1) ∧
    (run_scan c8ctx).lastStatus = some "Scan complete (vertical). Results saved." := by
  refine ⟨?_, ?_, ⟨?_, ?_⟩, ?_⟩ <;> with_unfolding_all decide

/-- C6: a failure-free, uninterrupted scan whose plan has N polarizations
(N is 1 or 2) writes exactly the N blocks, in plan order; total start and
end marker counts both equal N; each block begins with its start marker,
ends with its end marker, and contains exactly one structured CONFIG_JSON
metadata line and exactly one header row, whose column list has exactly
four entries. -/
theorem C6_block_balance (C : Ctx) (freqs mags : List ℚ) (h : CleanRun C freqs mags) :
    (run_scan C).csv
      = (polPlan C.p.polMode).flatMap (fun pol => blockLines C.env C.p pol.1 freqs mags)
    ∧ ((polPlan C.p.polMode).length = 1 ∨ (polPlan C.p.polMode).length = 2)
    ∧ (run_scan C).csv.countP isStart = (polPlan C.p.polMode).length
    ∧ (run_scan C).csv.countP isEnd = (polPlan C.p.polMode).length
    ∧ ∀ pol ∈ polPlan C.p.polMode,
        (blockLines C.env C.p pol.1 freqs mags).head? = some CsvLine.testStart
        ∧ (blockLines C.env C.p pol.1 freqs mags).getLast? = some CsvLine.testEnd
        ∧ (blockLines C.env C.p pol.1 freqs mags).countP isStart = 1
        ∧ (blockLines C.env C.p pol.1 freqs mags).countP isEnd = 1
        ∧ (blockLines C.env C.p pol.1 freqs mags).countP isConfig = 1
        ∧ CsvLine.configJson (buildConfig C.p (some pol.1))
            ∈ blockLines C.env C.p pol.1 freqs mags
        ∧ (blockLines C.env C.p pol.1 freqs mags).countP isHeaderLine = 1
        ∧ CsvLine.header ["Phi (deg)", "Theta (deg)", "Frequency (GHz)",
            formatLabel C.p.selected_format] ∈ blockLines C.env C.p pol.1 freqs mags := by
  obtain ⟨hcsv, hstat, hpre⟩ := run_scan_clean C freqs mags h
  have hcnt1 : ∀ sel : CsvLine → Bool,
      (∀ lab, (blockLines C.env C.p lab freqs mags).countP sel = 1) →
      (run_scan C).csv.countP sel = (polPlan C.p.polMode).length := by
    intro sel hone
    rw [hcsv, countP_flatMap_const sel
      (fun pol => blockLines C.env C.p pol.1 freqs mags) 1
      (fun pol => hone pol.1) (polPlan C.p.polMode)]
    omega
  refine ⟨hcsv, ?_, ?_, ?_, ?_⟩
  · cases C.p.polMode <;> simp [polPlan]
  · exact hcnt1 isStart (fun lab => (blockLines_shape C.env C.p lab freqs mags).1)
  · exact hcnt1 isEnd (fun lab => (blockLines_shape C.env C.p lab freqs mags).2.1)
  · intro pol _
    obtain ⟨a, b, c, d, e, f, g, i⟩ := blockLines_shape C.env C.p pol.1 freqs mags
    exact ⟨e, f, a, b, c, g, d, i⟩

theorem C6_block_balance_witness :
    CleanRun c8ctx [8] [-3] ∧
    ((run_scan c8ctx).csv
       = (polPlan c8ctx.p.polMode).flatMap
           (fun pol => blockLines c8ctx.env c8ctx.p pol.1 [8] [-3])
     ∧ ((polPlan c8ctx.p.polMode).length = 1 ∨ (polPlan c8ctx.p.polMode).length = 2)
     ∧ (run_scan c8ctx).csv.countP isStart = (polPlan c8ctx.p.polMode).length
     ∧ (run_scan c8ctx).csv.countP isEnd = (polPlan c8ctx.p.polMode).length
     ∧ ∀ pol ∈ polPlan c8ctx.p.polMode,
         (blockLines c8ctx.env c8ctx.p pol.1 [8] [-3]).head? = some CsvLine.testStart
         ∧ (blockLines c8ctx.env c8ctx.p pol.1 [8] [-3]).getLast? = some CsvLine.testEnd
         ∧ (blockLines c8ctx.env c8ctx.p pol.1 [8] [-3]).countP isStart = 1
         ∧ (blockLines c8ctx.env c8ctx.p pol.1 [8] [-3]).countP isEnd = 1
         ∧ (blockLines c8ctx.env c8ctx.p pol.1 [8] [-3]).countP isConfig = 1
         ∧ CsvLine.configJson (buildConfig c8ctx.p (some pol.1))
             ∈ blockLines c8ctx.env c8ctx.p pol.1 [8] [-3]
         ∧ (blockLines c8ctx.env c8ctx.p pol.1 [8] [-3]).countP isHeaderLine = 1
         ∧ CsvLine.header ["Phi (deg)", "Theta (deg)", "Frequency (GHz)",
             formatLabel c8ctx.p.selected_format]
             ∈ blockLines c8ctx.env c8ctx.p pol.1 [8] [-3]) := by
  have hcr : CleanRun c8ctx [8] [-3] :=
    ⟨Nat.one_pos, fun _ => rfl, fun _ => rfl, fun _ => rfl, fun _ => rfl,
     fun _ => rfl, fun _ => rfl, fun _ => rfl⟩
  exact ⟨hcr, C6_block_balance c8ctx [8] [-3] hcr⟩

/-- C7: when a trace of M frequency points (frequency and value arrays of
equal length M) is processed at one angle and no append fails, the
measurement loop appends exactly M CSV rows and exactly M live-sink
samples, in trace order with no duplication or drop; each stored row holds
`round(value, 2)` while each live-sink sample holds the unrounded value. -/
theorem C7_row_sample_fidelity (env : Env) (p : Params) (phi theta : ℚ)
    (freqs mags : List ℚ) (s : St)
    (hlen : freqs.length = mags.length)
    (happ : ∀ n, env.appendFails n = none) :
    ∃ s', emitRows env p phi theta (freqs.zip mags) s = (none, s')
      ∧ s'.trace = s.trace ++ rowTail p phi theta (freqs.zip mags)
      ∧ csvOf (rowTail p phi theta (freqs.zip mags))
          = (freqs.zip mags).map (fun fm => CsvLine.row phi theta fm.1 (pyRound2 fm.2))
      ∧ liveOf (rowTail p phi theta (freqs.zip mags))
          = (freqs.zip mags).map (fun fm => (fm.1, angleKey p phi theta, fm.2))
      ∧ (csvOf (rowTail p phi theta (freqs.zip mags))).length = mags.length
      ∧ (liveOf (rowTail p phi theta (freqs.zip mags))).length = mags.length := by
  refine ⟨_, emitRows_clean_eq env p phi theta happ (freqs.zip mags) s, by simp,
    csvOf_rowTail p phi theta (freqs.zip mags), liveOf_rowTail p phi theta (freqs.zip mags),
    ?_, ?_⟩
  · rw [csvOf_rowTail]
    simp [List.length_zip, hlen]
  · rw [liveOf_rowTail]
    simp [List.length_zip, hlen]

theorem C7_row_sample_fidelity_witness :
    ([(8:ℚ), 9].length = [(-3:ℚ), -4].length ∧ (∀ n, cleanEnv.appendFails n = none)) ∧
    (∃ s', emitRows cleanEnv xyParams 0 90 ([(8:ℚ), 9].zip [(-3:ℚ), -4]) St.init = (none, s')
      ∧ s'.trace = St.init.trace ++ rowTail xyParams 0 90 ([(8:ℚ), 9].zip [(-3:ℚ), -4])
      ∧ csvOf (rowTail xyParams 0 90 ([(8:ℚ), 9].zip [(-3:ℚ), -4]))
          = ([(8:ℚ), 9].zip [(-3:ℚ), -4]).map
              (fun fm => CsvLine.row 0 90 fm.1 (pyRound2 fm.2))
      ∧ liveOf (rowTail xyParams 0 90 ([(8:ℚ), 9].zip [(-3:ℚ), -4]))
          = ([(8:ℚ), 9].zip [(-3:ℚ), -4]).map (fun fm => (fm.1, angleKey xyParams 0 90, fm.2))
      ∧ (csvOf (rowTail xyParams 0 90 ([(8:ℚ), 9].zip [(-3:ℚ), -4]))).length
          = [(-3:ℚ), -4].length
      ∧ (liveOf (rowTail xyParams 0 90 ([(8:ℚ), 9].zip [(-3:ℚ), -4]))).length
          = [(-3:ℚ), -4].length) :=
  ⟨⟨rfl, fun _ => rfl⟩,
   C7_row_sample_fidelity cleanEnv xyParams 0 90 [8, 9] [-3, -4] St.init rfl (fun _ => rfl)⟩

theorem setRotationDeg_moveFail (env : Env) (target : ℚ) (s : St) (msg : String)
    (hrot : env.hasRot = true) (hlr : s.lastRot = none)
    (hfail : env.rotMoveFails s.rotCalls = some msg) :
    setRotationDeg env target s =
      { s with
        rotCalls := s.rotCalls + 1,
        trace := (s.trace ++ [Ev.dev (DevCall.rotMoveAbs target)])
          ++ [Ev.status ("Rotation stage error: " ++ msg)] } := by
  unfold setRotationDeg setRotationRun
  rw [hrot, hlr, hfail]
  simp

theorem polPlan_shape (pm : PolMode) :
    ∃ lab ang rest, polPlan pm = (lab, ang) :: rest := by
  cases pm <;> exact ⟨_, _, _, rfl⟩

/-- C4 (counterexample): a scan whose rotation-stage move raises surfaces
"Rotation stage error" but then proceeds to move the positioner, read the
VNA, write the data row and finish with the scan-complete status — the
rotation failure is not terminal for the scan. -/
theorem C4_counterexample :
    (run_scan c4ctx).trace.take 5 =
      [Ev.dev (DevCall.posMove 0 0), Ev.dev (DevCall.posWaitIdle 60), Ev.checkAbort false,
       Ev.dev (DevCall.rotMoveAbs 0), Ev.status "Rotation stage error: rot-fail"]
    ∧ Ev.dev (DevCall.posMove 0 90) ∈ (run_scan c4ctx).trace
    ∧ Ev.dev DevCall.vnaReadTrace ∈ (run_scan c4ctx).trace
    ∧ Ev.csv (CsvLine.row 0 90 8 (-3)) ∈ (run_scan c4ctx).trace
    ∧ (run_scan c4ctx).lastStatus = some "Scan complete (vertical). Results saved." := by
  refine ⟨?_, ?_, ?_, ?_, ?_⟩ <;> with_unfolding_all decide

/-- C4 (amended): a rotation-stage failure is non-fatal: when the first
rotation move raises, the "Rotation stage error" message is surfaced as a
status update, but the scan still measures the full grid — the CSV gains
the complete blocks of every planned polarization and the scan ends with
the scan-complete status. -/
theorem C4_rotation_nonfatal (C : Ctx) (freqs mags : List ℚ) (msg : String)
    (h : CleanRun C freqs mags)
    (hrot : C.env.hasRot = true)
    (hfail : C.env.rotMoveFails 0 = some msg) :
    Ev.status ("Rotation stage error: " ++ msg) ∈ (run_scan C).trace
    ∧ (run_scan C).csv
        = (polPlan C.p.polMode).flatMap (fun pol => blockLines C.env C.p pol.1 freqs mags)
    ∧ (run_scan C).lastStatus = some (completeMsg C.p.polMode) := by
  obtain ⟨hcsv, hstat, _⟩ := run_scan_clean C freqs mags h
  refine ⟨?_, hcsv, hstat⟩
  obtain ⟨hfuel, habort, hpause, hpos, hvna, hopen, happ, hclose⟩ := h
  obtain ⟨lab, ang, rest, hplan⟩ := polPlan_shape C.p.polMode
  obtain ⟨s', hrec, hbo', hcsv', hpre'⟩ :=
    polLoop_clean C freqs mags hfuel habort hpause hpos hvna hopen happ hclose rest
      (polPassSt C freqs mags lab ang homedSt) (polPassSt_blockOpen C freqs mags lab ang homedSt)
  obtain ⟨hfc, hfs, hfp⟩ := finishRun_clean C habort s'
  have hrun : run_scan C = finishRun C s' := by
    rw [run_scan_as_polLoop C hpos, hplan,
      polLoop_cons_clean C freqs mags hfuel habort hpause hpos hvna hopen happ hclose
        lab ang rest homedSt, hrec]
  rw [hrun]
  have hmem : Ev.status ("Rotation stage error: " ++ msg)
      ∈ (polPassSt C freqs mags lab ang homedSt).trace := by
    show Ev.status ("Rotation stage error: " ++ msg)
      ∈ ((((setRotationDeg C.env ang
        { homedSt with
          checks := homedSt.checks + 1,
          trace := homedSt.trace ++ [Ev.checkAbort false] }).trace
        ++ [Ev.status ("Scanning… (" ++ lab ++ ")")])
        ++ (openLines C.env C.p (some lab)).map Ev.csv)
        ++ phiTail C.p freqs mags (theta_range C.p) (phi_range C.p))
        ++ [Ev.csv CsvLine.testEnd]
    refine List.mem_append_left _ (List.mem_append_left _ (List.mem_append_left _
      (List.mem_append_left _ ?_)))
    rw [setRotationDeg_moveFail C.env ang _ msg hrot rfl hfail]
    show Ev.status ("Rotation stage error: " ++ msg) ∈ _ ++ [Ev.status ("Rotation stage error: " ++ msg)]
    exact List.mem_append_right _ (List.mem_singleton_self _)
  exact hfp.subset (hpre'.subset hmem)

theorem C4_rotation_nonfatal_witness :
    (CleanRun c4ctx [8] [-3] ∧ c4ctx.env.hasRot = true
      ∧ c4ctx.env.rotMoveFails 0 = some "rot-fail") ∧
    (Ev.status ("Rotation stage error: " ++ "rot-fail") ∈ (run_scan c4ctx).trace
     ∧ (run_scan c4ctx).csv
         = (polPlan c4ctx.p.polMode).flatMap
             (fun pol => blockLines c4ctx.env c4ctx.p pol.1 [8] [-3])
     ∧ (run_scan c4ctx).lastStatus = some (completeMsg c4ctx.p.polMode)) := by
  have hcr : CleanRun c4ctx [8] [-3] :=
    ⟨Nat.one_pos, fun _ => rfl, fun _ => rfl, fun _ => rfl, fun _ => rfl,
     fun _ => rfl, fun _ => rfl, fun _ => rfl⟩
  have hfail : c4ctx.env.rotMoveFails 0 = some "rot-fail" := by
    with_unfolding_all decide
  exact ⟨⟨hcr, rfl, hfail⟩, C4_rotation_nonfatal c4ctx [8] [-3] "rot-fail" hcr rfl hfail⟩

theorem setRotationRun_posCalls (env : Env) (a : ℚ) (s : St) :
    (setRotationRun env a s).posCalls = s.posCalls := by
  unfold setRotationRun
  cases hm : env.rotMoveFails s.rotCalls with
  | some msg => simp [hm]
  | none =>
    cases hw : env.rotWaitDone (s.rotCalls + 1) with
    | ok b =>
      cases b with
      | true => simp [hw]
      | false =>
        cases he : env.rotEstFails (s.rotCalls + 1 + 1) with
        | some m2 => simp [hw, he]
        | none => simp [hw, he]
    | error m =>
      cases he : env.rotEstFails (s.rotCalls + 1 + 1) with
      | some m2 => simp [hw, he]
      | none => simp [hw, he]

theorem setRotationDeg_posCalls (env : Env) (a : ℚ) (s : St) :
    (setRotationDeg env a s).posCalls = s.posCalls := by
  unfold setRotationDeg
  split
  · rfl
  · split
    · split
      · rfl
      · exact setRotationRun_posCalls env a s
    · exact setRotationRun_posCalls env a s

/-- C2 (counterexample): when the first in-loop positioner move raises, the
scan reports "Positioner error" and closes the block — and the trace ends
right there: no positioner home command and no rotation-stage restore is
issued afterwards, so the devices are not returned to a safe position. -/
theorem C2_counterexample :
    (run_scan c2ctx).trace.drop 15 =
      [Ev.dev (DevCall.posMove 0 90), Ev.status "Positioner error: boom",
       Ev.csv CsvLine.testEnd]
    ∧ (run_scan c2ctx).trace.length = 18
    ∧ ((run_scan c2ctx).trace.drop 16).filter isDevEv = []
    ∧ (run_scan c2ctx).blockOpen = false := by
  refine ⟨?_, ?_, ?_, ?_⟩ <;> with_unfolding_all decide

/-- C2 (amended): a positioner failure at the first grid angle is terminal
for the scan: the open CSV block is closed and the error message reported,
and the worker returns immediately — the trace ends with the failing move,
the error status and the end marker, so no device is commanded back to a
safe position on this path. -/
theorem C2_device_error_terminal (C : Ctx) (msg : String) (phi1 th1 : ℚ)
    (phis ths : List ℚ)
    (hphis : phi_range C.p = phi1 :: phis)
    (hths : theta_range C.p = th1 :: ths)
    (hfuel : 0 < C.fuel)
    (habort : ∀ n, C.fl.abortAt n = false)
    (hpause : ∀ n, C.fl.pauseAt n = false)
    (hpos0 : C.env.posFails 0 = none) (hpos1 : C.env.posFails 1 = none)
    (hfail : C.env.posFails 2 = some msg)
    (hopen : ∀ n, C.env.openFails n = none)
    (hclose : ∀ n, C.env.closeFails n = none) :
    ([Ev.dev (DevCall.posMove phi1 th1), Ev.status ("Positioner error: " ++ msg),
      Ev.csv CsvLine.testEnd] <:+ (run_scan C).trace)
    ∧ (run_scan C).blockOpen = false := by
  obtain ⟨fu, hfu⟩ : ∃ fu, C.fuel = fu + 1 := ⟨C.fuel - 1, by omega⟩
  obtain ⟨lab, ang, rest, hplan⟩ := polPlan_shape C.p.polMode
  have hrun0 : run_scan C =
      (match polLoop C (phi_range C.p) (theta_range C.p) (polPlan C.p.polMode) homedSt with
       | Flow.halt s => s
       | Flow.cont s => finishRun C s) := by
    unfold run_scan
    simp only [posMoveCall, posWaitCall, St.init, hpos0, hpos1]
    rfl
  rw [hrun0, hplan]
  simp only [polLoop, readAbort_clean C.fl habort,
    openCsvBlock_clean C.env C.p (some lab) hopen, hphis, hths, phiLoop, thetaLoop,
    scanStep, hfu, pauseWait_clean C.fl hpause fu, posMoveCall,
    setRotationDeg_posCalls, homedSt, hfail, reportCloseReturn,
    closeCall_clean C.env hclose]
  constructor
  · simp only [List.append_assoc]
    repeat
      first
        | exact List.suffix_rfl
        | refine List.IsSuffix.trans ?_ (List.suffix_cons _ _)
        | refine List.IsSuffix.trans ?_ (List.suffix_append _ _)
  · trivial

theorem C2_device_error_terminal_witness :
    (phi_range c2ctx.p = 0 :: [] ∧ theta_range c2ctx.p = 90 :: []
      ∧ 0 < c2ctx.fuel
      ∧ (∀ n, c2ctx.fl.abortAt n = false) ∧ (∀ n, c2ctx.fl.pauseAt n = false)
      ∧ c2ctx.env.posFails 0 = none ∧ c2ctx.env.posFails 1 = none
      ∧ c2ctx.env.posFails 2 = some "boom"
      ∧ (∀ n, c2ctx.env.openFails n = none) ∧ (∀ n, c2ctx.env.closeFails n = none)) ∧
    (([Ev.dev (DevCall.posMove 0 90), Ev.status ("Positioner error: " ++ "boom"),
       Ev.csv CsvLine.testEnd] <:+ (run_scan c2ctx).trace)
     ∧ (run_scan c2ctx).blockOpen = false) := by
  have h1 : phi_range c2ctx.p = 0 :: [] := by with_unfolding_all decide
  have h2 : theta_range c2ctx.p = 90 :: [] := rfl
  have h6 : c2ctx.env.posFails 0 = none := by with_unfolding_all decide
  have h7 : c2ctx.env.posFails 1 = none := by with_unfolding_all decide
  have h8 : c2ctx.env.posFails 2 = some "boom" := by with_unfolding_all decide
  refine ⟨⟨h1, h2, Nat.one_pos, fun _ => rfl, fun _ => rfl, h6, h7, h8,
    fun _ => rfl, fun _ => rfl⟩, ?_⟩
  exact C2_device_error_terminal c2ctx "boom" 0 90 [] [] h1 h2 Nat.one_pos
    (fun _ => rfl) (fun _ => rfl) h6 h7 h8 (fun _ => rfl) (fun _ => rfl)

/-- C3 (counterexample): in a scan paused and then aborted, after the
worker observes the abort inside the pause-wait loop it still issues a
device command — the `move_to(0, 0)` home — before reporting
"Scan aborted." and closing the block, so "termination without any further
device command" is false. -/
theorem C3_counterexample :
    (run_scan c3ctx).trace.drop 14 =
      [Ev.checkPause true, Ev.checkAbort true, Ev.dev (DevCall.posMove 0 0),
       Ev.status "Scan aborted.", Ev.csv CsvLine.testEnd]
    ∧ (run_scan c3ctx).trace.length = 19 := by
  refine ⟨?_, ?_⟩ <;> with_unfolding_all decide

/-- C3 (amended): when the worker observes the abort flag inside the
pause-wait loop, it issues exactly one further device command — the
best-effort home `move_to(0, 0)` — then reports "Scan aborted.", closes
the open CSV block and returns; no measurement or scan-angle motion
follows. -/
theorem C3_abort_while_paused (C : Ctx) (phi theta : ℚ) (s : St)
    (hfuel : 0 < C.fuel)
    (hp : C.fl.pauseAt s.checks = true)
    (ha : C.fl.abortAt (s.checks + 1) = true)
    (hbo : s.blockOpen = true)
    (hclose : ∀ n, C.env.closeFails n = none) :
    scanStep C phi theta s = StepRes.returned
      { s with
        checks := s.checks + 1 + 1,
        posCalls := s.posCalls + 1,
        closes := s.closes + 1,
        blockOpen := false,
        trace := ((((s.trace ++ [Ev.checkPause true]) ++ [Ev.checkAbort true])
          ++ [Ev.dev (DevCall.posMove 0 0)])
          ++ [Ev.status "Scan aborted."]) ++ [Ev.csv CsvLine.testEnd] } := by
  obtain ⟨fu, hfu⟩ : ∃ fu, C.fuel = fu + 1 := ⟨C.fuel - 1, by omega⟩
  simp only [scanStep, hfu, pauseWait, readPause, hp, readAbort, ha, posMoveCall,
    reportCloseReturn, closeCall_clean C.env hclose, hbo]

theorem C3_abort_while_paused_witness :
    (0 < c3StepCtx.fuel
      ∧ c3StepCtx.fl.pauseAt openBlockSt.checks = true
      ∧ c3StepCtx.fl.abortAt (openBlockSt.checks + 1) = true
      ∧ openBlockSt.blockOpen = true
      ∧ (∀ n, c3StepCtx.env.closeFails n = none)) ∧
    scanStep c3StepCtx 0 90 openBlockSt = StepRes.returned
      { openBlockSt with
        checks := openBlockSt.checks + 1 + 1,
        posCalls := openBlockSt.posCalls + 1,
        closes := openBlockSt.closes + 1,
        blockOpen := false,
        trace := ((((openBlockSt.trace ++ [Ev.checkPause true]) ++ [Ev.checkAbort true])
          ++ [Ev.dev (DevCall.posMove 0 0)])
          ++ [Ev.status "Scan aborted."]) ++ [Ev.csv CsvLine.testEnd] } :=
  ⟨⟨Nat.one_pos, rfl, rfl, rfl, fun _ => rfl⟩,
   C3_abort_while_paused c3StepCtx 0 90 openBlockSt Nat.one_pos rfl rfl rfl (fun _ => rfl)⟩

end AntennaRange
